import Mathlib

/-!
Verification of the data-aggregation and insight-ranking core of the
brendi-fast-hackathon dashboard.

The development shallowly embeds the server-side transformation pipeline:

* `Stats`     — `src/server/api/stats.ts` (windowed order statistics, variation)
* `Sales`     — `src/server/api/sales.ts` (order → sale mapping)
* `Chart`     — `src/app/components/home/HomeChart.client.vue` (revenue buckets)
* `Campaigns` — the campaigns utility module (normalizer + joiner)
* `Feedbacks` — the feedbacks utility module and feedbacks endpoint
* `Seg`       — `src/server/utils/customerSegmentation.ts`
* `Insights`  — `src/server/api/insights.ts` (deterministic insight ranking)

Modelling conventions, used uniformly:

* JavaScript numbers are embedded as `ℚ` (or `ℤ` for epoch timestamps and
  integer counters); `NaN` is represented explicitly where the code tests
  for it, via an `Option`/inductive tag, and noted at each definition.
* A `Date` value is embedded as its epoch-milliseconds integer: an ISO date
  string is represented by the integer that `new Date(s).getTime()` yields.
* `null`/`undefined` fields are `Option` values; JavaScript truthiness tests
  on strings compare against `""`.
* `Math.round` rounds half toward positive infinity, hence `⌊q + 1/2⌋`.
* `Array.prototype.sort` is stable (ECMA-262); it is embedded as a stable
  insertion sort on the comparator's key.
-/

/-- JavaScript `Math.round`: round half toward positive infinity. -/
def jsRound (q : ℚ) : ℤ := ⌊q + 1/2⌋


/-- A raw `createdAt` field as the order endpoints see it:
`string | {iso?, _date?, _timestamp?} | null | undefined`.
A date string is represented by its epoch value; an absent or empty
(hence falsy) `iso` key is `none`. -/
inductive OrderDate where
  | dnull
  | dstr (t : ℤ)
  | dobj (dateTag tsTag : Bool) (iso : Option ℤ)
deriving DecidableEq, Repr

namespace Stats

/-- `parseDate` from `src/server/api/stats.ts`. -/
def parseDate : OrderDate → Option ℤ
  | .dnull => none
  | .dstr t => some t
  | .dobj dateTag tsTag iso =>
    if dateTag ∧ iso.isSome then iso
    else if tsTag ∧ iso.isSome then iso
    else none

/-- `isDateInRange` from `src/server/api/stats.ts`: both bounds inclusive. -/
def isDateInRange (date : Option ℤ) (rangeStart rangeEnd : ℤ) : Bool :=
  match date with
  | none => false
  | some d => decide (rangeStart ≤ d ∧ d ≤ rangeEnd)

/-- An order record, with exactly the fields `stats.ts` reads. -/
structure Order where
  id : Option String := none
  code : Option String := none
  createdAt : OrderDate := .dnull
  status : Option String := none
  totalPrice : Option ℤ := none
deriving DecidableEq, Repr

/-- The current-window filter (`filteredOrders` in the handler). -/
def filteredOrders (orders : List Order) (rangeStart rangeEnd : ℤ) : List Order :=
  orders.filter fun order => isDateInRange (parseDate order.createdAt) rangeStart rangeEnd

/-- `previousRangeStart = new Date(rangeStart.getTime() - rangeSize)`. -/
def previousRangeStart (rangeStart rangeEnd : ℤ) : ℤ :=
  rangeStart - (rangeEnd - rangeStart)

/-- `previousFilteredOrders`: the handler filters with
`isDateInRange(date, previousRangeStart, previousRangeEnd)` where
`previousRangeEnd = rangeStart`. -/
def previousFilteredOrders (orders : List Order) (rangeStart rangeEnd : ℤ) : List Order :=
  orders.filter fun order =>
    isDateInRange (parseDate order.createdAt) (previousRangeStart rangeStart rangeEnd) rangeStart

/-- Delivered revenue: `filter(status === 'delivered').reduce(sum + (totalPrice || 0))`. -/
def deliveredRevenue (orders : List Order) : ℤ :=
  ((orders.filter fun o => o.status = some "delivered").map fun o => o.totalPrice.getD 0).sum

/-- `previousOrders` count in the handler. -/
def previousOrdersCount (orders : List Order) (rangeStart rangeEnd : ℤ) : ℕ :=
  (previousFilteredOrders orders rangeStart rangeEnd).length

/-- `previousRevenue` in the handler. -/
def previousRevenue (orders : List Order) (rangeStart rangeEnd : ℤ) : ℤ :=
  deliveredRevenue (previousFilteredOrders orders rangeStart rangeEnd)

/-- `calculateVariation` from `src/server/api/stats.ts`. -/
def calculateVariation (current previous : ℚ) : ℤ :=
  if previous = 0 then (if current > 0 then 100 else 0)
  else jsRound ((current - previous) / previous * 100)

/-- The previous-window membership predicate exactly as the specification
words it: the half-open interval `[start - (end - start), start)`. -/
def inPreviousWindowSpec (d rangeStart rangeEnd : ℤ) : Prop :=
  rangeStart - (rangeEnd - rangeStart) ≤ d ∧ d < rangeStart

instance (d s e : ℤ) : Decidable (inPreviousWindowSpec d s e) := by
  unfold inPreviousWindowSpec; infer_instance

/-- The closed-interval previous-window predicate that the code actually
implements: `[start - (end - start), start]`, both ends inclusive. -/
def inPreviousWindowClosed (order : Order) (rangeStart rangeEnd : ℤ) : Bool :=
  match parseDate order.createdAt with
  | some d => decide (rangeStart - (rangeEnd - rangeStart) ≤ d ∧ d ≤ rangeStart)
  | none => false

end Stats


/-- The sale status values the frontend expects (`SaleStatus` in the types module). -/
inductive SaleStatus where
  | paid
  | failed
  | refunded
deriving DecidableEq, Repr

namespace Sales

/-- `parseDate` from `src/server/api/sales.ts` (textually identical to the
one in `stats.ts`). -/
def parseDate : OrderDate → Option ℤ
  | .dnull => none
  | .dstr t => some t
  | .dobj dateTag tsTag iso =>
    if dateTag ∧ iso.isSome then iso
    else if tsTag ∧ iso.isSome then iso
    else none

/-- `mapOrderStatus` from `src/server/api/sales.ts`: the catch-all default
is `'paid'`. -/
def mapOrderStatus (orderStatus : String) : SaleStatus :=
  if orderStatus = "delivered" ∨ orderStatus = "confirmed" ∨ orderStatus = "in_transit" then
    .paid
  else if orderStatus = "rejected" ∨ orderStatus = "cancelled" then
    .failed
  else if orderStatus = "refunded" then
    .refunded
  else
    .paid

/-- An order record with the fields `sales.ts` reads (`customer` inlined). -/
structure Order where
  id : Option String := none
  code : Option String := none
  createdAt : OrderDate := .dnull
  status : Option String := none
  totalPrice : Option ℤ := none
  customerPhone : Option String := none
  customerName : Option String := none
deriving DecidableEq, Repr

/-- The `Sale` shape returned by the endpoint and consumed by the chart. -/
structure Sale where
  id : String
  date : ℤ
  status : SaleStatus
  email : String
  amount : ℚ
deriving DecidableEq, Repr

/-- The per-order body of the `sales` mapping in the endpoint; `now` stands
for the `new Date()` fallback used when the order has no parsable date. -/
def saleOfOrder (order : Order) (now : ℤ) : Sale :=
  let email :=
    match order.customerPhone with
    | some phone => phone ++ "@example.com"
    | none => "customer-" ++ order.id.getD "unknown" ++ "@example.com"
  { id := order.id.getD (order.code.getD "unknown")
    date := (parseDate order.createdAt).getD now
    status := mapOrderStatus (order.status.getD "created")
    email := email
    amount := (order.totalPrice.getD 0 : ℚ) / 100 }

end Sales


section StableSort

variable {α : Type*} {β : Type*} [LinearOrder β]

/-- Insertion step of a stable descending sort on a key. In
`sortDescBy (x :: xs) = insertDescBy x (sortDescBy xs)` the element `x` is
earlier in the original array than everything in `xs`, so on equal keys it
is placed first — matching ECMA-262 stable `Array.prototype.sort` with
comparator `(a, b) => key(b) - key(a)`. -/
def insertDescBy (key : α → β) (x : α) : List α → List α
  | [] => [x]
  | y :: ys => if key x < key y then y :: insertDescBy key x ys else x :: y :: ys

/-- Stable descending sort by a key (model of `[...arr].sort((a, b) => key(b) - key(a))`). -/
def sortDescBy (key : α → β) : List α → List α
  | [] => []
  | x :: xs => insertDescBy key x (sortDescBy key xs)

/-- Insertion step of a stable ascending sort on a key (comparator
`(a, b) => key(a) - key(b)`). -/
def insertAscBy (key : α → β) (x : α) : List α → List α
  | [] => [x]
  | y :: ys => if key y < key x then y :: insertAscBy key x ys else x :: y :: ys

/-- Stable ascending sort by a key. -/
def sortAscBy (key : α → β) : List α → List α
  | [] => []
  | x :: xs => insertAscBy key x (sortAscBy key xs)

/-- The earliest element of the list attaining the maximal key. -/
def firstMaxBy (key : α → β) : List α → Option α
  | [] => none
  | x :: xs =>
    match firstMaxBy key xs with
    | none => some x
    | some b => if key x < key b then some b else some x

/-- The earliest element of the list attaining the minimal key. -/
def firstMinBy (key : α → β) : List α → Option α
  | [] => none
  | x :: xs =>
    match firstMinBy key xs with
    | none => some x
    | some b => if key b < key x then some b else some x

/-- The latest element of the list attaining the maximal key. -/
def lastMaxBy (key : α → β) : List α → Option α
  | [] => none
  | x :: xs =>
    match lastMaxBy key xs with
    | none => some x
    | some b => if key x ≤ key b then some b else some x

end StableSort

/-- A JSON value, modelling the loosely-typed payloads the campaign
normalizer receives (`string | string[] | null` by declared type, anything
by runtime defensiveness). -/
inductive Json where
  | jnull
  | jbool (b : Bool)
  | jnum (q : ℚ)
  | jstr (s : String)
  | jarr (items : List Json)
  | jobj (fields : List (String × Json))

/-- Opening curly brace character (written via its code point). -/
def obraceChar : Char := Char.ofNat 123

/-- Closing curly brace character (written via its code point). -/
def cbraceChar : Char := Char.ofNat 125

/-- JSON string escaping for the common escapes; rare control characters
are passed through unescaped (irrelevant to any claim). -/
def escapeJsonChar (c : Char) : String :=
  if c = '"' then "\\\""
  else if c = '\\' then "\\\\"
  else if c = '\n' then "\\n"
  else if c = '\r' then "\\r"
  else if c = '\t' then "\\t"
  else String.singleton c

def escapeJsonString (s : String) : String :=
  String.join (s.toList.map escapeJsonChar)

/-- Decimal rendering of a JSON number. Integers render exactly as
`JSON.stringify` renders them; for non-integral rationals the exact JS
double formatting is not modelled (no claim depends on it). -/
def jsonNumToString (q : ℚ) : String :=
  if q.den = 1 then q.num.repr else q.num.repr ++ "/" ++ (q.den : ℤ).repr

mutual

/-- `JSON.stringify` on the `Json` model. -/
def jsonStringify : Json → String
  | .jnull => "null"
  | .jbool true => "true"
  | .jbool false => "false"
  | .jnum q => jsonNumToString q
  | .jstr s => "\"" ++ escapeJsonString s ++ "\""
  | .jarr items => "[" ++ stringifyArrayItems items ++ "]"
  | .jobj fields =>
    String.singleton obraceChar ++ stringifyObjectFields fields ++ String.singleton cbraceChar

def stringifyArrayItems : List Json → String
  | [] => ""
  | [x] => jsonStringify x
  | x :: y :: rest => jsonStringify x ++ "," ++ stringifyArrayItems (y :: rest)

def stringifyObjectFields : List (String × Json) → String
  | [] => ""
  | [(k, v)] => "\"" ++ escapeJsonString k ++ "\":" ++ jsonStringify v
  | (k, v) :: f :: rest =>
    "\"" ++ escapeJsonString k ++ "\":" ++ jsonStringify v ++ "," ++
      stringifyObjectFields (f :: rest)

end

/-- The whitespace characters `JSON.parse` skips. -/
def jsonWsChars : List Char := [' ', '\t', '\n', '\r']

def skipJsonWs (cs : List Char) : List Char :=
  cs.dropWhile fun c => c ∈ jsonWsChars

def isJsonDigit (c : Char) : Bool := decide ('0' ≤ c ∧ c ≤ '9')

def digitVal (c : Char) : ℕ := c.toNat - '0'.toNat

def digitsToNat (ds : List Char) : ℕ :=
  ds.foldl (fun acc d => acc * 10 + digitVal d) 0

def hexVal (c : Char) : Option ℕ :=
  if isJsonDigit c then some (digitVal c)
  else if 'a' ≤ c ∧ c ≤ 'f' then some (10 + c.toNat - 'a'.toNat)
  else if 'A' ≤ c ∧ c ≤ 'F' then some (10 + c.toNat - 'A'.toNat)
  else none

/-- Exponent suffix of a JSON number literal. -/
def parseJsonExponent (v : ℚ) (cs : List Char) : Option (ℚ × List Char) :=
  let signSplit : Bool × List Char :=
    match cs with
    | '-' :: rest => (true, rest)
    | '+' :: rest => (false, rest)
    | _ => (false, cs)
  let eDigits := signSplit.2.takeWhile isJsonDigit
  if eDigits.isEmpty then none
  else
    let e := digitsToNat eDigits
    some (if signSplit.1 then v / (10 : ℚ) ^ e else v * (10 : ℚ) ^ e,
      signSplit.2.drop eDigits.length)

/-- A JSON number literal (sign, integer part, fraction, exponent). -/
def parseJsonNumber (cs : List Char) : Option (ℚ × List Char) :=
  let signSplit : Bool × List Char :=
    match cs with
    | '-' :: rest => (true, rest)
    | _ => (false, cs)
  let intDigits := signSplit.2.takeWhile isJsonDigit
  let cs2 := signSplit.2.drop intDigits.length
  if intDigits.isEmpty then none
  else
    let base : ℚ := (digitsToNat intDigits : ℚ)
    let withFrac : Option (ℚ × List Char) :=
      match cs2 with
      | '.' :: rest =>
        let fracDigits := rest.takeWhile isJsonDigit
        if fracDigits.isEmpty then none
        else
          some (base + (digitsToNat fracDigits : ℚ) / (10 : ℚ) ^ fracDigits.length,
            rest.drop fracDigits.length)
      | _ => some (base, cs2)
    match withFrac with
    | none => none
    | some (v, cs3) =>
      let withExp : Option (ℚ × List Char) :=
        match cs3 with
        | 'e' :: rest => parseJsonExponent v rest
        | 'E' :: rest => parseJsonExponent v rest
        | _ => some (v, cs3)
      match withExp with
      | none => none
      | some (v2, cs4) => some (if signSplit.1 then -v2 else v2, cs4)

/-- Body of a JSON string literal, after the opening quote; fuel-indexed. -/
def parseJsonStringBody : ℕ → List Char → Option (String × List Char)
  | 0, _ => none
  | _ + 1, [] => none
  | _ + 1, '"' :: rest => some ("", rest)
  | fuel + 1, '\\' :: rest =>
    let decoded : Option (Char × List Char) :=
      match rest with
      | [] => none
      | e :: rest2 =>
        if e = '"' then some ('"', rest2)
        else if e = '\\' then some ('\\', rest2)
        else if e = '/' then some ('/', rest2)
        else if e = 'b' then some (Char.ofNat 8, rest2)
        else if e = 'f' then some (Char.ofNat 12, rest2)
        else if e = 'n' then some ('\n', rest2)
        else if e = 'r' then some ('\r', rest2)
        else if e = 't' then some ('\t', rest2)
        else if e = 'u' then
          match rest2 with
          | h1 :: h2 :: h3 :: h4 :: rest3 =>
            match hexVal h1, hexVal h2, hexVal h3, hexVal h4 with
            | some a, some b, some c, some d =>
              some (Char.ofNat (((a * 16 + b) * 16 + c) * 16 + d), rest3)
            | _, _, _, _ => none
          | _ => none
        else none
    match decoded with
    | none => none
    | some (c, remaining) =>
      match parseJsonStringBody fuel remaining with
      | some (s, rest3) => some (String.singleton c ++ s, rest3)
      | none => none
  | fuel + 1, c :: rest =>
    match parseJsonStringBody fuel rest with
    | some (s, rest2) => some (String.singleton c ++ s, rest2)
    | none => none

mutual

/-- One JSON value (fuel-indexed recursive-descent parser for `JSON.parse`). -/
def parseJsonVal : ℕ → List Char → Option (Json × List Char)
  | 0, _ => none
  | fuel + 1, cs0 =>
    match skipJsonWs cs0 with
    | [] => none
    | 'n' :: 'u' :: 'l' :: 'l' :: rest => some (.jnull, rest)
    | 't' :: 'r' :: 'u' :: 'e' :: rest => some (.jbool true, rest)
    | 'f' :: 'a' :: 'l' :: 's' :: 'e' :: rest => some (.jbool false, rest)
    | '"' :: rest =>
      match parseJsonStringBody (rest.length + 1) rest with
      | some (s, rest2) => some (.jstr s, rest2)
      | none => none
    | '[' :: rest =>
      match skipJsonWs rest with
      | ']' :: rest2 => some (.jarr [], rest2)
      | rest1 =>
        match parseJsonArrayItems fuel rest1 with
        | some (items, rest2) => some (.jarr items, rest2)
        | none => none
    | c :: rest =>
      if c = obraceChar then
        match skipJsonWs rest with
        | [] => none
        | c2 :: rest2 =>
          if c2 = cbraceChar then some (.jobj [], rest2)
          else
            match parseJsonObjectFields fuel (c2 :: rest2) with
            | some (fields, rest3) => some (.jobj fields, rest3)
            | none => none
      else if c = '-' ∨ isJsonDigit c then
        match parseJsonNumber (c :: rest) with
        | some (q, rest2) => some (.jnum q, rest2)
        | none => none
      else none

/-- Comma-separated JSON array items up to the closing bracket. -/
def parseJsonArrayItems : ℕ → List Char → Option (List Json × List Char)
  | 0, _ => none
  | fuel + 1, cs =>
    match parseJsonVal fuel cs with
    | none => none
    | some (v, rest) =>
      match skipJsonWs rest with
      | ',' :: rest2 =>
        match parseJsonArrayItems fuel rest2 with
        | some (items, rest3) => some (v :: items, rest3)
        | none => none
      | ']' :: rest2 => some ([v], rest2)
      | _ => none

/-- Comma-separated JSON object fields up to the closing brace. -/
def parseJsonObjectFields : ℕ → List Char → Option (List (String × Json) × List Char)
  | 0, _ => none
  | fuel + 1, cs =>
    match skipJsonWs cs with
    | '"' :: rest =>
      match parseJsonStringBody (rest.length + 1) rest with
      | none => none
      | some (k, rest2) =>
        match skipJsonWs rest2 with
        | ':' :: rest4 =>
          match parseJsonVal fuel rest4 with
          | none => none
          | some (v, rest5) =>
            match skipJsonWs rest5 with
            | ',' :: rest7 =>
              match parseJsonObjectFields fuel rest7 with
              | some (fields, rest8) => some ((k, v) :: fields, rest8)
              | none => none
            | c :: rest7 => if c = cbraceChar then some ([(k, v)], rest7) else none
            | [] => none
        | _ => none
    | _ => none

end

/-- `JSON.parse`: parse one value and require only whitespace to remain;
any failure models a thrown `SyntaxError`. -/
def jsonParse (s : String) : Option Json :=
  match parseJsonVal (2 * s.length + 2) s.toList with
  | some (v, rest) => if (skipJsonWs rest).isEmpty then some v else none
  | none => none

/-- JavaScript truthiness on the `Json` model (`!payload`): `null`,
`false`, `0` and `""` are falsy. (`undefined` is modelled by `jnull`;
`NaN` has no `ℚ` representative.) -/
def jsFalsy : Json → Bool
  | .jnull => true
  | .jbool b => !b
  | .jnum q => decide (q = 0)
  | .jstr s => decide (s = "")
  | .jarr _ => false
  | .jobj _ => false

section LaterMax

variable {α : Type*} {β : Type*} [LinearOrder β]

/-- Keep the incumbent unless the incoming (later-scanned) element's key is
at least as large — the merge policy of the campaign result map. -/
def chooseLaterMax (key : α → β) (acc : Option α) (x : α) : Option α :=
  match acc with
  | none => some x
  | some b => if key b ≤ key x then some x else some b

end LaterMax

namespace Campaigns

/-- `DateLike = string | CampaignDateValue | null | undefined`; a date
string is represented by its epoch value, a `CampaignDateValue` object by
its optional (falsy-when-empty) `iso` key. -/
inductive DateLike where
  | dlnull
  | dlstr (t : ℤ)
  | dlobj (iso : Option ℤ)
deriving DecidableEq, Repr

/-- `normalizeDate` from the campaigns utility module. -/
def normalizeDate : DateLike → Option ℤ
  | .dlnull => none
  | .dlstr t => some t
  | .dlobj iso => iso

/-- `NumberLike = number | string | null | undefined`. A number literal is
`nnum none` when it is `NaN` or infinite (no `ℚ` representative); a string
carries the value `Number(s)` yields, `none` when that is not finite. -/
inductive NumberLike where
  | nnull
  | nnum (val : Option ℚ)
  | nstr (val : Option ℚ)
deriving DecidableEq, Repr

/-- `parseNumber`: `null → null`; a finite number as-is; a string via
`Number(...)`, collapsing non-finite results to `null`. -/
def parseNumber : NumberLike → Option ℚ
  | .nnull => none
  | .nnum v => v
  | .nstr v => v

/-- `normalizeLimit` has the same three branches as `parseNumber` (its
number branch skips the finiteness check, which `ℚ` cannot distinguish). -/
def normalizeLimit : NumberLike → Option ℚ
  | .nnull => none
  | .nnum v => v
  | .nstr v => v

structure RawCampaignMedia where
  url : Option String := none
  type : Option String := none
deriving DecidableEq, Repr

structure CampaignMedia where
  url : String
  type : String
deriving DecidableEq, Repr

/-- `normalizeMedia`: valid only when both `url` and `type` are truthy. -/
def normalizeMedia (media : Option RawCampaignMedia) : Option CampaignMedia :=
  match media with
  | none => none
  | some m =>
    match m.url, m.type with
    | some url, some mediaType =>
      if url = "" ∨ mediaType = "" then none else some ⟨url, mediaType⟩
    | _, _ => none

structure RawCampaignVoucher where
  code : Option String := none
  type : Option String := none
  active : Option Bool := none
  reward : Option String := none
  isDeleted : Option Bool := none
  campaignId : Option String := none
  usesPerUser : Option ℚ := none
  minimumOrder : Option ℚ := none
  fixedDiscount : Option ℚ := none
  percentageDiscount : Option ℚ := none
  firstOrderOnly : Option Bool := none
deriving DecidableEq, Repr

structure CampaignVoucher where
  code : String
  type : String
  active : Bool
  reward : Option String
  isDeleted : Bool
  campaignId : String
  usesPerUser : ℚ
  minimumOrder : ℚ
  fixedDiscount : ℚ
  percentageDiscount : ℚ
  firstOrderOnly : Bool
deriving DecidableEq, Repr

/-- `normalizeVoucher`: every field with a type-appropriate default. -/
def normalizeVoucher (voucher : Option RawCampaignVoucher) : Option CampaignVoucher :=
  match voucher with
  | none => none
  | some v =>
    some
      { code := v.code.getD ""
        type := v.type.getD ""
        active := v.active.getD false
        reward := v.reward
        isDeleted := v.isDeleted.getD false
        campaignId := v.campaignId.getD ""
        usesPerUser := v.usesPerUser.getD 0
        minimumOrder := v.minimumOrder.getD 0
        fixedDiscount := v.fixedDiscount.getD 0
        percentageDiscount := v.percentageDiscount.getD 0
        firstOrderOnly := v.firstOrderOnly.getD false }

structure RawSendStatus where
  errorCount : NumberLike := .nnull
  totalCount : NumberLike := .nnull
  partialCount : NumberLike := .nnull
  successCount : NumberLike := .nnull
deriving DecidableEq, Repr

structure CampaignSendStatus where
  errorCount : ℚ
  totalCount : ℚ
  partialCount : ℚ
  successCount : ℚ
deriving DecidableEq, Repr

/-- `normalizeSendStatus`: each count parsed, defaulting to `0`. -/
def normalizeSendStatus (status : Option RawSendStatus) : Option CampaignSendStatus :=
  match status with
  | none => none
  | some s =>
    some
      { errorCount := (parseNumber s.errorCount).getD 0
        totalCount := (parseNumber s.totalCount).getD 0
        partialCount := (parseNumber s.partialCount).getD 0
        successCount := (parseNumber s.successCount).getD 0 }

/-- `typeof item === 'string' ? item : JSON.stringify(item)`. -/
def payloadItemToString : Json → String
  | .jstr s => s
  | item => jsonStringify item

/-- `parsePayload` from the campaigns utility module. -/
def parsePayload (payload : Json) : List String :=
  if jsFalsy payload then []
  else
    match payload with
    | .jarr items => items.map payloadItemToString
    | .jstr s =>
      match jsonParse s with
      | some (.jarr items) => items.map payloadItemToString
      | some (.jstr t) => [t]
      | _ => [s]
    | other => [jsonStringify other]

structure RawCampaignResult where
  id : String
  campaign_id : String
  store_id : String := ""
  menu_slug : Option String := none
  store_phone : Option String := none
  targeting : String := ""
  is_custom : Option Bool := none
  payload : Json := .jnull
  media : Option RawCampaignMedia := none
  voucher : Option RawCampaignVoucher := none
  send_status : Option RawSendStatus := none
  conversion_rate : NumberLike := .nnull
  evasion_rate : NumberLike := .nnull
  order_ids : Option (List String) := none
  orders_delivered : NumberLike := .nnull
  total_order_value : NumberLike := .nnull
  timestamp : DateLike := .dlnull
  end_timestamp : DateLike := .dlnull
  created_at : DateLike := .dlnull
  updated_at : DateLike := .dlnull

structure CampaignResult where
  id : String
  campaignId : String
  storeId : String
  targeting : String
  menuSlug : Option String
  storePhone : Option String
  isCustom : Bool
  payload : List String
  media : Option CampaignMedia
  voucher : Option CampaignVoucher
  sendStatus : Option CampaignSendStatus
  conversionRate : Option ℚ
  evasionRate : Option ℚ
  orderIds : Option (List String)
  ordersDelivered : Option ℚ
  totalOrderValue : Option ℚ
  timestamp : Option ℤ
  endTimestamp : Option ℤ
  createdAt : Option ℤ
  updatedAt : Option ℤ
deriving DecidableEq, Repr

/-- `mapResult` from the campaigns utility module. -/
def mapResult (raw : RawCampaignResult) : CampaignResult :=
  { id := raw.id
    campaignId := raw.campaign_id
    storeId := raw.store_id
    targeting := raw.targeting
    menuSlug := raw.menu_slug
    storePhone := raw.store_phone
    isCustom := raw.is_custom.getD false
    payload := parsePayload raw.payload
    media := normalizeMedia raw.media
    voucher := normalizeVoucher raw.voucher
    sendStatus := normalizeSendStatus raw.send_status
    conversionRate := parseNumber raw.conversion_rate
    evasionRate := parseNumber raw.evasion_rate
    orderIds := raw.order_ids
    ordersDelivered := parseNumber raw.orders_delivered
    totalOrderValue := parseNumber raw.total_order_value
    timestamp := normalizeDate raw.timestamp
    endTimestamp := normalizeDate raw.end_timestamp
    createdAt := normalizeDate raw.created_at
    updatedAt := normalizeDate raw.updated_at }

/-- `getResultTimestamp`: epoch of
`updatedAt || endTimestamp || timestamp || createdAt`, `0` when absent. -/
def getResultTimestamp : Option CampaignResult → ℤ
  | none => 0
  | some result =>
    (result.updatedAt <|> result.endTimestamp <|> result.timestamp <|> result.createdAt).getD 0

/-- The freshness key the result map compares on. -/
def resultFreshness (r : CampaignResult) : ℤ := getResultTimestamp (some r)

structure RawCampaign where
  id : String
  campaign_id : String
  store_id : String := ""
  created_at : DateLike := .dlnull
  updated_at : DateLike := .dlnull
  date : DateLike := .dlnull
  description : Option String := none
  limit : NumberLike := .nnull
  media : Option RawCampaignMedia := none
  message_content_risk : Option String := none
  message_volume_risk : Option String := none
  payload : Json := .jnull
  status : String := ""
  targeting : String := ""
  type : String := ""
  use_voucher : Option Bool := none
  voucher : Option RawCampaignVoucher := none

structure Campaign where
  id : String
  campaignId : String
  storeId : String
  createdAt : Option ℤ
  updatedAt : Option ℤ
  date : Option ℤ
  description : Option String
  limit : Option ℚ
  media : Option CampaignMedia
  messageContentRisk : Option String
  messageVolumeRisk : Option String
  payload : List String
  status : String
  targeting : String
  type : String
  useVoucher : Bool
  voucher : Option CampaignVoucher
  results : Option CampaignResult
deriving DecidableEq, Repr

/-- `mapCampaign` from the campaigns utility module. -/
def mapCampaign (raw : RawCampaign) (result : Option CampaignResult) : Campaign :=
  { id := raw.id
    campaignId := raw.campaign_id
    storeId := raw.store_id
    createdAt := normalizeDate raw.created_at
    updatedAt := normalizeDate raw.updated_at
    date := normalizeDate raw.date
    description := raw.description
    limit := normalizeLimit raw.limit
    media := normalizeMedia raw.media
    messageContentRisk := raw.message_content_risk
    messageVolumeRisk := raw.message_volume_risk
    payload := parsePayload raw.payload
    status := raw.status
    targeting := raw.targeting
    type := raw.type
    useVoucher := raw.use_voucher.getD false
    voucher := normalizeVoucher raw.voucher
    results := result }

/-- One step of the `resultMap` accumulation in `getCampaignsWithResults`:
map the raw result, then store it under its `campaignId` when there is no
entry yet or its freshness is at least the stored entry's. -/
def resultMapStep (m : String → Option CampaignResult) (rawResult : RawCampaignResult) :
    String → Option CampaignResult :=
  let mapped := mapResult rawResult
  match m mapped.campaignId with
  | none => fun k => if k = mapped.campaignId then some mapped else m k
  | some existing =>
    if getResultTimestamp (some existing) ≤ getResultTimestamp (some mapped) then
      fun k => if k = mapped.campaignId then some mapped else m k
    else m

/-- The `resultMap` of `getCampaignsWithResults` as a lookup function. -/
def buildResultMap (results : List RawCampaignResult) : String → Option CampaignResult :=
  results.foldl resultMapStep fun _ => none

/-- `getCampaignsWithResults`, parametrized by the two loaded raw arrays. -/
def getCampaignsWithResults (campaigns : List RawCampaign)
    (results : List RawCampaignResult) : List Campaign :=
  campaigns.map fun raw => mapCampaign raw (buildResultMap results raw.campaign_id)

/-- Spec-side selection, following the invariant's words: among the mapped
results sharing the campaign id, the one whose freshness timestamp
(`updatedAt ?? endTimestamp ?? timestamp ?? createdAt`) is latest, the
later-encountered one winning ties. -/
def latestResultFor (results : List CampaignResult) (cid : String) : Option CampaignResult :=
  lastMaxBy resultFreshness (results.filter fun r => r.campaignId = cid)

end Campaigns


namespace Chart

/-- Pointwise update of the `groupedData` map (`Map<string, number>` keyed
by the normalized date's ISO string; the key is represented by the
normalized epoch itself). -/
def mapSet (m : ℤ → Option ℚ) (k : ℤ) (v : ℚ) : ℤ → Option ℚ :=
  fun j => if j = k then some v else m j

/-- The grouping watcher of `HomeChart.client.vue`, parametrized by the
enumerated bucket boundaries (`eachDayOfInterval`/`eachWeekOfInterval`/
`eachMonthOfInterval` over the range) and by the period's `normalizeDate`
(date-fns `startOfDay`/`startOfWeek`/`startOfMonth`), both modelled
abstractly on epochs. Output records pair each bucket's date with its
accumulated amount. -/
def groupedChartData (normalize : ℤ → ℤ) (dates : List ℤ)
    (sales : List Sales.Sale) : List (ℤ × ℚ) :=
  if sales.isEmpty then dates.map fun d => (d, 0)
  else
    let paidSales := sales.filter fun sale => sale.status = SaleStatus.paid
    let initial : ℤ → Option ℚ :=
      dates.foldl (fun m d => mapSet m (normalize d) 0) fun _ => none
    let grouped : ℤ → Option ℚ :=
      paidSales.foldl
        (fun m sale =>
          let key := normalize sale.date
          if (m key).isSome then mapSet m key ((m key).getD 0 + sale.amount) else m)
        initial
    dates.map fun d => (normalize d, (grouped (normalize d)).getD 0)

end Chart


namespace Feedbacks

/-- A raw `{_date?, iso?}` timestamp; `iso` carries the epoch of the ISO
string, `none` when the key is absent. -/
structure RawTimestamp where
  iso : Option ℤ := none
deriving DecidableEq, Repr

/-- `parseDate = value?.iso ?? null` from the feedbacks utility module. -/
def parseDate : Option RawTimestamp → Option ℤ
  | none => none
  | some v => v.iso

/-- A raw `rating: number | null` (possibly absent): `rnum` for an actual
number, `rnan` for `NaN`, `rnull` for `null`/`undefined`. -/
inductive RawRating where
  | rnull
  | rnan
  | rnum (q : ℚ)
deriving DecidableEq, Repr

structure RawFeedback where
  id : String
  store_consumer_id : String
  created_at : Option RawTimestamp := none
  updated_at : Option RawTimestamp := none
  category : String := ""
  order_id : String := ""
  rated_response : Option String := none
  rating : RawRating := .rnull
  store_id : String := ""
deriving DecidableEq, Repr

/-- `clampRating` from the feedbacks utility module: non-numbers and `NaN`
collapse to `0`; numbers clamp into `[1, 5]` via `min(5, max(1, r))`. -/
def clampRating : RawRating → ℚ
  | .rnull => 0
  | .rnan => 0
  | .rnum q => min 5 (max 1 q)

structure Feedback where
  id : String
  orderId : String
  storeId : String
  storeConsumerId : String
  category : String
  rating : ℚ
  comment : String
  createdAt : Option ℤ
  updatedAt : Option ℤ
deriving DecidableEq, Repr

/-- `mapFeedback` from the feedbacks utility module (`getFeedbacks` path).
`String.trim` models `rated_response?.trim?.()`, and `|| ''` catches both a
null response and an all-whitespace one. -/
def mapFeedback (entry : RawFeedback) : Feedback :=
  { id := entry.id
    orderId := entry.order_id
    storeId := entry.store_id
    storeConsumerId := entry.store_consumer_id
    category := if entry.category = "" then "sem-categoria" else entry.category
    rating := clampRating entry.rating
    comment := (entry.rated_response.map String.trim).getD ""
    createdAt := parseDate entry.created_at
    updatedAt := parseDate entry.updated_at }

structure FeedbackSummary where
  storeConsumerId : String
  category : String
  rating : ℚ
  createdAt : Option ℤ
deriving DecidableEq, Repr

/-- `buildFeedbackSummaries`: stable sort by `createdAt` descending (absent
dates treated as epoch 0), truncate to `limit`, and re-clamp the
already-numeric rating. -/
def buildFeedbackSummaries (feedbacks : List Feedback) (limit : ℕ := 400) :
    List FeedbackSummary :=
  ((sortDescBy (fun f => f.createdAt.getD 0) feedbacks).take limit).map fun item =>
    { storeConsumerId := item.storeConsumerId
      category := item.category
      rating := clampRating (.rnum item.rating)
      createdAt := item.createdAt }

end Feedbacks

namespace FeedbacksApi

/-- A JavaScript number that may be `NaN` (`??` does not catch `NaN`). -/
inductive JsNumber where
  | nan
  | num (q : ℚ)
deriving DecidableEq, Repr

structure Feedback where
  id : String
  orderId : String
  storeId : String
  storeConsumerId : String
  category : String
  rating : JsNumber
  comment : String
  createdAt : Option ℤ
  updatedAt : Option ℤ
deriving DecidableEq, Repr

/-- `mapFeedback` from the feedbacks endpoint: `rating: entry.rating ?? 0`,
with no clamping at all — `null` becomes `0`, `NaN` and out-of-range
numbers pass through. -/
def mapFeedback (entry : Feedbacks.RawFeedback) : Feedback :=
  { id := entry.id
    orderId := entry.order_id
    storeId := entry.store_id
    storeConsumerId := entry.store_consumer_id
    category := if entry.category = "" then "sem-categoria" else entry.category
    rating :=
      match entry.rating with
      | .rnull => .num 0
      | .rnan => .nan
      | .rnum q => .num q
    comment := (entry.rated_response.map String.trim).getD ""
    createdAt := Feedbacks.parseDate entry.created_at
    updatedAt := Feedbacks.parseDate entry.updated_at }

end FeedbacksApi

namespace Seg

/-- `clampRating` from `customerSegmentation.ts`: non-finite input collapses
to `0`, otherwise clamp into `[0, 5]` via `max(0, min(5, v))`. Stated on
`JsNumber` so the `Number.isFinite` guard is represented. -/
def clampRating : FeedbacksApi.JsNumber → ℚ
  | .nan => 0
  | .num q => max 0 (min 5 q)

/-- Collapse runs of spaces to a single space (second half of
`replace(/\s+/g, ' ')` after whitespace has been mapped to spaces). -/
def squeezeSpaces : List Char → List Char
  | [] => []
  | [c] => [c]
  | a :: b :: rest =>
    if a = ' ' ∧ b = ' ' then squeezeSpaces (b :: rest)
    else a :: squeezeSpaces (b :: rest)

/-- `normalizeComment`: `comment.replace(/\s+/g, ' ').trim()`, then keep at
most 160 characters, truncating to 157 plus `"..."`. `Char.isWhitespace`
models the regex class `\s` for its common members. -/
def normalizeComment (comment : String) : String :=
  let collapsed :=
    squeezeSpaces (comment.toList.map fun c => if c.isWhitespace then ' ' else c)
  let clean :=
    String.mk (((collapsed.dropWhile (· = ' ')).reverse.dropWhile (· = ' ')).reverse)
  if clean.length ≤ 160 then clean
  else String.mk (clean.toList.take 157) ++ "..."

structure CategoryStat where
  category : String
  count : ℕ
  averageRating : ℚ
deriving DecidableEq, Repr

structure CustomerFeedbackProfile where
  storeConsumerId : String
  totalFeedbacks : ℕ
  averageRating : ℚ
  lastFeedbackAt : Option ℤ
  topCategories : List CategoryStat
  sampleComments : List String
deriving DecidableEq, Repr

/-- Insertion-ordered `Map<string, number>` bump used by
`describeCategories` (JS `Map` iterates in insertion order). -/
def bumpCount (acc : List (String × ℕ)) (category : String) (count : ℕ) :
    List (String × ℕ) :=
  match acc with
  | [] => [(category, count)]
  | (c, n) :: rest =>
    if c = category then (c, n + count) :: rest
    else (c, n) :: bumpCount rest category count

def categoryCounts (profiles : List CustomerFeedbackProfile) : List (String × ℕ) :=
  profiles.foldl
    (fun acc profile =>
      profile.topCategories.foldl
        (fun acc cat => bumpCount acc cat.category cat.count) acc)
    []

/-- `describeCategories`: the two most frequent categories, rendered as
`"name (count)"` joined by `", "`; `null` when there are none. -/
def describeCategories (profiles : List CustomerFeedbackProfile) : Option String :=
  let ranked := (sortDescBy (fun e => e.2) (categoryCounts profiles)).take 2
  if ranked.isEmpty then none
  else
    some (String.intercalate ", "
      (ranked.map fun e => e.1 ++ " (" ++ Nat.repr e.2 ++ ")"))

/-- `pickSampleComment`: first truthy sample comment over the audience,
normalized. -/
def pickSampleComment (profiles : List CustomerFeedbackProfile) : Option String :=
  (profiles.findSome? fun profile =>
    profile.sampleComments.find? fun c => c ≠ "").map normalizeComment

/-- `formatCoverage`. -/
def formatCoverage (count total : ℕ) : String :=
  if total = 0 then "Nenhum cliente com feedback recente"
  else
    let percentage := jsRound ((count : ℚ) / total * 100)
    Nat.repr count ++ " cliente" ++ (if count = 1 then "" else "s")
      ++ " (" ++ percentage.repr ++ "% dos perfis recentes)"

/-- `buildSegmentSignals`: category line, then sample line, defaulting when
both are absent; at most two signals. -/
def buildSegmentSignals (audience : List CustomerFeedbackProfile)
    (defaultSignal : String) : List String :=
  let withCategories : List String :=
    match describeCategories audience with
    | some categories => ["Temas recorrentes: " ++ categories ++ "."]
    | none => []
  let withSample : List String :=
    match pickSampleComment audience with
    | some sample => withCategories ++ ["Exemplo recente: \"" ++ sample ++ "\"."]
    | none => withCategories
  let signals := if withSample.isEmpty then [defaultSignal] else withSample
  signals.take 2

inductive Priority where
  | alta
  | media
  | baixa
deriving DecidableEq, Repr

structure CustomerSegment where
  id : String
  name : String
  description : String
  coverage : String
  signals : List String
  recommendedActions : List String
  priority : Priority
  memberIds : List String
deriving DecidableEq, Repr

/-- `buildSegment`. -/
def buildSegment (id name : String) (audience : List CustomerFeedbackProfile)
    (total : ℕ) (priority : Priority) (description defaultSignal : String)
    (recommendedActions : List String) : CustomerSegment :=
  { id := id
    name := name
    description := description
    coverage := formatCoverage audience.length total
    signals := buildSegmentSignals audience defaultSignal
    recommendedActions := recommendedActions
    priority := priority
    memberIds := audience.map fun profile => profile.storeConsumerId }

structure ProfileAccumulator where
  id : String
  ratingSum : ℚ
  totalFeedbacks : ℕ
  lastFeedbackAt : Option ℤ
  categoryTotals : List (String × ℕ × ℚ)
  sampleComments : List String
deriving DecidableEq, Repr

/-- Lookup in the insertion-ordered accumulator map. -/
def lookupAcc (m : List (String × ProfileAccumulator)) (key : String) :
    Option ProfileAccumulator :=
  match m with
  | [] => none
  | (k, w) :: rest => if k = key then some w else lookupAcc rest key

/-- `Map.set`: replace in place, else append (insertion order kept). -/
def setAcc (m : List (String × ProfileAccumulator)) (key : String)
    (v : ProfileAccumulator) : List (String × ProfileAccumulator) :=
  match m with
  | [] => [(key, v)]
  | (k, w) :: rest =>
    if k = key then (k, v) :: rest else (k, w) :: setAcc rest key v

/-- `updateLastFeedback` closure of `buildCustomerFeedbackProfiles`. -/
def updateLastFeedback (current candidate : Option ℤ) : Option ℤ :=
  match candidate with
  | none => current
  | some cand =>
    match current with
    | none => some cand
    | some cur => if cand > cur then some cand else current

/-- Per-category `{count, ratingSum}` bump (insertion-ordered map). -/
def bumpCategory (totals : List (String × ℕ × ℚ)) (category : String)
    (rating : ℚ) : List (String × ℕ × ℚ) :=
  match totals with
  | [] => [(category, 1, rating)]
  | (c, n, s) :: rest =>
    if c = category then (c, n + 1, s + rating) :: rest
    else (c, n, s) :: bumpCategory rest category rating

/-- The loop body of `buildCustomerFeedbackProfiles`. The rating is wrapped
in `JsNumber.num` because the normalized `Feedback.rating` is a plain
number by type. -/
def accumulateFeedback (m : List (String × ProfileAccumulator))
    (feedback : Feedbacks.Feedback) : List (String × ProfileAccumulator) :=
  let base := (lookupAcc m feedback.storeConsumerId).getD
    { id := feedback.storeConsumerId, ratingSum := 0, totalFeedbacks := 0,
      lastFeedbackAt := none, categoryTotals := [], sampleComments := [] }
  let stepped :=
    { base with
      totalFeedbacks := base.totalFeedbacks + 1
      ratingSum := base.ratingSum + clampRating (.num feedback.rating)
      lastFeedbackAt :=
        updateLastFeedback base.lastFeedbackAt
          (feedback.updatedAt <|> feedback.createdAt) }
  let withCategory :=
    if feedback.category ≠ "" then
      { stepped with
        categoryTotals :=
          bumpCategory stepped.categoryTotals feedback.category
            (clampRating (.num feedback.rating)) }
    else stepped
  let withComment :=
    if feedback.comment ≠ "" ∧ withCategory.sampleComments.length < 3 then
      { withCategory with
        sampleComments := withCategory.sampleComments ++ [feedback.comment] }
    else withCategory
  setAcc m feedback.storeConsumerId withComment

/-- `buildCustomerFeedbackProfiles`: accumulate per customer, sort by
`lastFeedbackAt` descending (absent dates as epoch 0), truncate, project. -/
def buildCustomerFeedbackProfiles (feedbacks : List Feedbacks.Feedback)
    (limit : ℕ := 180) : List CustomerFeedbackProfile :=
  let accumulated := feedbacks.foldl accumulateFeedback []
  ((sortDescBy (fun e => e.2.lastFeedbackAt.getD 0) accumulated).take limit).map
    fun e =>
      { storeConsumerId := e.2.id
        totalFeedbacks := e.2.totalFeedbacks
        averageRating :=
          if e.2.totalFeedbacks ≠ 0 then
            e.2.ratingSum / (e.2.totalFeedbacks : ℚ)
          else 0
        lastFeedbackAt := e.2.lastFeedbackAt
        topCategories :=
          ((sortDescBy (fun c : String × ℕ × ℚ => c.2.1) e.2.categoryTotals).take 3).map
            fun c =>
              { category := c.1
                count := c.2.1
                averageRating := if c.2.1 ≠ 0 then c.2.2 / (c.2.1 : ℚ) else 0 }
        sampleComments := e.2.sampleComments.map normalizeComment }

structure CustomerSegmentationPayload where
  summary : String
  segments : List CustomerSegment
deriving DecidableEq, Repr

/-- `formatAverage`: `value.toFixed(1).replace('.', ',')`, with `toFixed`
rounding modelled by `jsRound` on tenths. -/
def formatAverage (value : ℚ) : String :=
  let tenths := jsRound (value * 10)
  (tenths / 10).repr ++ "," ++ (tenths % 10).natAbs.repr

/-- `buildFallbackSegmentation` from `customerSegmentation.ts`. -/
def buildFallbackSegmentation (profiles : List CustomerFeedbackProfile) :
    CustomerSegmentationPayload :=
  if profiles.isEmpty then
    { summary := "Ainda não recebemos feedbacks suficientes para identificar padrões consistentes. Colete novas avaliações para desbloquear uma segmentação inteligente."
      segments := [{
        id := "collect-feedback"
        name := "Coletar feedbacks recentes"
        description := "Convide clientes recentes a avaliarem pedidos para formar massa crítica de dados."
        coverage := "0 clientes com feedback recente"
        signals := ["Sem feedbacks ativos disponíveis."]
        recommendedActions := [
          "Adicione um lembrete de pesquisa pós-pedido nas próximas campanhas.",
          "Ofereça cupom simbólico para quem responder rapidamente."]
        priority := .media
        memberIds := [] }] }
  else
    let total := profiles.length
    let promoters := profiles.filter fun profile => profile.averageRating ≥ 4
    let neutrals := profiles.filter fun profile =>
      profile.averageRating ≥ 5/2 ∧ profile.averageRating < 4
    let detractors := profiles.filter fun profile => profile.averageRating < 5/2
    let averageOverall := (profiles.map fun profile => profile.averageRating).sum / (total : ℚ)
    let segments := ([
      buildSegment "promoters" "Promotores embaixadores" promoters total .media
        "Clientes com notas altas e frequência de feedbacks consistente. Ideais para campanhas VIP ou programas de indicação."
        "Clientes com elogios, mas ainda sem ação específica registrada."
        ["Ofereça combos exclusivos ou primeira mão de novidades.",
         "Peça depoimentos para usar em campanhas pagas ou landing pages."],
      buildSegment "neutral" "Em risco silencioso" neutrals total .media
        "Clientes que misturam elogios e alertas pontuais. Precisam de ações rápidas para não migrar para concorrência."
        "Clientes com notas medianas e menções a inconsistências."
        ["Dispare campanha de teste A/B com cupom no próximo pedido.",
         "Use notificações proativas abordando o principal tema mencionado."],
      buildSegment "detractors" "Críticos urgentes" detractors total .alta
        "Clientes com notas baixas e reclamações repetidas. Podem impactar avaliações públicas se não forem abordados."
        "Clientes com recorrência de notas <= 2 e comentários negativos."
        ["Abra canal 1:1 (telefone ou WhatsApp) com resolução em até 24h.",
         "Ofereça crédito direcionado após confirmar a correção da falha."]
    ]).filter fun segment =>
      segment.coverage ≠ "0 clientes (0% dos perfis recentes)"
    { summary :=
        Nat.repr total ++ " perfis com feedback recente analisados. Média geral de "
          ++ formatAverage averageOverall ++ ". "
          ++ (if detractors.isEmpty then
                "Nenhum crítico urgente identificado no recorte atual."
              else formatCoverage detractors.length total ++ " exigem tratamento prioritário.")
      segments := segments }

end Seg

namespace Insights

inductive Severity where
  | low
  | medium
  | high
deriving DecidableEq, Repr

/-- An insight projected to the fields the ranking logic determines (`id`
and `severity`); the remaining fields (title/metric/summary/recommendation/
evidence) are locale-formatted prose the selection never reads. -/
structure Insight where
  id : String
  severity : Severity
deriving DecidableEq, Repr

/-- `EMPTY_INSIGHT` ("Configure suas primeiras campanhas"). -/
def EMPTY_INSIGHT : Insight := { id := "campaigns-missing-data", severity := .low }

structure CampaignPerformance where
  campaignId : String
  targeting : String
  status : String
  totalSent : ℚ
  success : ℚ
  errors : ℚ
  conversionRate : Option ℚ
  ordersDelivered : Option ℚ
  totalOrderValue : Option ℚ
  updatedAt : Option ℤ
deriving DecidableEq, Repr

/-- The early-return condition of `collectCampaignPerformance`
(`!campaign.results && totalSent === 0 && !totalOrderValue &&
conversionRate === null`; `!totalOrderValue` is true for both `null` and
`0`). -/
def shouldSkipPerformance (results : Option Campaigns.CampaignResult)
    (totalSent : ℚ) (totalOrderValue conversionRate : Option ℚ) : Bool :=
  results = none ∧ totalSent = 0
    ∧ (totalOrderValue = none ∨ totalOrderValue = some 0)
    ∧ conversionRate = none

/-- `collectCampaignPerformance` from `insights.ts`. -/
def collectCampaignPerformance (campaigns : List Campaigns.Campaign) :
    List CampaignPerformance :=
  campaigns.filterMap fun campaign =>
    let sendStatus : Option Campaigns.CampaignSendStatus :=
      campaign.results.bind fun r => r.sendStatus
    let totalSent : ℚ := (sendStatus.map fun s => s.totalCount).getD 0
    let success : ℚ := (sendStatus.map fun s => s.successCount).getD 0
    let errors : ℚ := (sendStatus.map fun s => s.errorCount).getD 0
    let conversionRate : Option ℚ :=
      match campaign.results.bind fun r => r.conversionRate with
      | some rate => some rate
      | none => if totalSent ≠ 0 then some (success / totalSent) else none
    let totalOrderValue : Option ℚ := campaign.results.bind fun r => r.totalOrderValue
    let ordersDelivered : Option ℚ := campaign.results.bind fun r => r.ordersDelivered
    if shouldSkipPerformance campaign.results totalSent totalOrderValue conversionRate then
      none
    else
      some
        { campaignId := campaign.campaignId
          targeting := campaign.targeting
          status := campaign.status
          totalSent := totalSent
          success := success
          errors := errors
          conversionRate := conversionRate
          ordersDelivered := ordersDelivered
          totalOrderValue := totalOrderValue
          updatedAt :=
            (campaign.results.bind fun r => r.updatedAt)
              <|> campaign.updatedAt <|> campaign.createdAt }

/-- The `totals` accumulator of the keep-iterating fallback. -/
structure InsightTotals where
  totalSent : ℚ
  success : ℚ
  revenue : ℚ
  orders : ℚ
deriving DecidableEq, Repr

/-- The `reduce` computing `totals` in `buildDeterministicCampaignInsight`. -/
def campaignTotals (performances : List CampaignPerformance) : InsightTotals :=
  performances.foldl
    (fun acc perf =>
      { totalSent := acc.totalSent + perf.totalSent
        success := acc.success + perf.success
        revenue := acc.revenue + perf.totalOrderValue.getD 0
        orders := acc.orders + perf.ordersDelivered.getD 0 })
    { totalSent := 0, success := 0, revenue := 0, orders := 0 }

/-- `avgConversion = totals.totalSent ? totals.success / totals.totalSent : 0`. -/
def avgConversionOf (performances : List CampaignPerformance) : ℚ :=
  let totals := campaignTotals performances
  if totals.totalSent ≠ 0 then totals.success / totals.totalSent else 0

/-- The keep-iterating fallback insight ("Campanhas estáveis"). -/
def keepIteratingInsight (performances : List CampaignPerformance) : Insight :=
  { id := "campaign-keep-iterating"
    severity := if avgConversionOf performances ≥ 1/20 then .medium else .low }

/-- Stalled-campaign step (`performances.find(...)`), falling through to
the keep-iterating fallback. -/
def stalledStep (performances : List CampaignPerformance) : Insight :=
  match performances.find? (fun perf =>
      perf.totalSent = 0
        ∧ perf.status.toLower ∈ ["running", "scheduled", "processing"]) with
  | some stalled =>
    { id := "campaign-" ++ stalled.campaignId ++ "-inactive", severity := .medium }
  | none => keepIteratingInsight performances

/-- Low-conversion step: ascending stable sort by `conversionRate ?? 1`
over performances with `totalSent ≥ 80`, emitting when the least rate is at
most `0.02`; falls through to the stalled step. -/
def lowConversionStep (performances : List CampaignPerformance) : Insight :=
  match (sortAscBy (fun perf => perf.conversionRate.getD 1)
      (performances.filter fun perf => perf.totalSent ≥ 80)).head? with
  | some low =>
    if low.conversionRate.getD 0 ≤ 1/50 then
      { id := "campaign-" ++ low.campaignId ++ "-needs-optimization"
        severity := .high }
    else stalledStep performances
  | none => stalledStep performances

/-- Revenue-winner step: descending stable sort by `totalOrderValue ?? 0`
over performances with positive revenue, emitting when the winner's
conversion rate is at least `0.04`; falls through to the low-conversion
step. -/
def revenueRuleStep (performances : List CampaignPerformance) : Insight :=
  match (sortDescBy (fun perf => perf.totalOrderValue.getD 0)
      (performances.filter fun perf => perf.totalOrderValue.getD 0 > 0)).head? with
  | some best =>
    if best.conversionRate.getD 0 ≥ 1/25 then
      { id := "campaign-" ++ best.campaignId ++ "-winner"
        severity := if best.totalOrderValue.getD 0 > 400000 then .high else .medium }
    else lowConversionStep performances
  | none => lowConversionStep performances

/-- `buildDeterministicCampaignInsight` from `insights.ts` (sequential
first-match rule cascade). -/
def buildDeterministicCampaignInsight (campaigns : List Campaigns.Campaign) : Insight :=
  if (collectCampaignPerformance campaigns).isEmpty then EMPTY_INSIGHT
  else revenueRuleStep (collectCampaignPerformance campaigns)

/-- Rule 1 of the specification's rule-list reformulation: among
performances with positive revenue, the earliest attaining the maximal
`totalOrderValue`; a candidate only when its conversion rate is ≥ 0.04. -/
def revenueWinnerRule (performances : List CampaignPerformance) : Option Insight :=
  match firstMaxBy (fun perf => perf.totalOrderValue.getD 0)
      (performances.filter fun perf => perf.totalOrderValue.getD 0 > 0) with
  | some best =>
    if best.conversionRate.getD 0 ≥ 1/25 then
      some
        { id := "campaign-" ++ best.campaignId ++ "-winner"
          severity := if best.totalOrderValue.getD 0 > 400000 then .high else .medium }
    else none
  | none => none

/-- Rule 2: among performances with `totalSent ≥ 80`, the earliest with the
least `conversionRate ?? 1`; a candidate only when that rate is ≤ 0.02. -/
def lowConversionRule (performances : List CampaignPerformance) : Option Insight :=
  match firstMinBy (fun perf => perf.conversionRate.getD 1)
      (performances.filter fun perf => perf.totalSent ≥ 80) with
  | some low =>
    if low.conversionRate.getD 0 ≤ 1/50 then
      some
        { id := "campaign-" ++ low.campaignId ++ "-needs-optimization"
          severity := .high }
    else none
  | none => none

/-- Rule 3: the first performance with status running/scheduled/processing
and no sends. -/
def stalledCampaignRule (performances : List CampaignPerformance) : Option Insight :=
  (performances.find? fun perf =>
      perf.totalSent = 0
        ∧ perf.status.toLower ∈ ["running", "scheduled", "processing"]).map
    fun stalled =>
      { id := "campaign-" ++ stalled.campaignId ++ "-inactive", severity := .medium }

/-- A scored candidate of the orders-driven insights endpoint. -/
structure InsightCandidate where
  id : String
  severity : Severity
  score : ℚ
deriving DecidableEq, Repr

/-- The `fallbackInsight` of the orders-driven endpoint
("consistent-growth"): severity low, score 0. -/
def fallbackInsight : InsightCandidate :=
  { id := "consistent-growth", severity := .low, score := 0 }

/-- `winningInsight`: the head of the stable score-descending sort when any
candidate fired, the fallback otherwise. -/
def winningInsight (candidates : List InsightCandidate) : InsightCandidate :=
  if candidates.isEmpty then fallbackInsight
  else
    match sortDescBy (fun c => c.score) candidates with
    | [] => fallbackInsight
    | c :: _ => c

end Insights

/-! ### Concrete inputs for the claim witnesses and counterexamples -/

/-- An order whose parsed date is exactly the requested window start. -/
def boundaryOrder : Stats.Order :=
  { createdAt := .dstr 100, status := some "delivered", totalPrice := some 500 }

/-- Concrete raw results and campaign used by the C2 witness. -/
def demoRawResultOld : Campaigns.RawCampaignResult :=
  { id := "res-1", campaign_id := "cmp-1", updated_at := .dlstr 1000 }

def demoRawResultNew : Campaigns.RawCampaignResult :=
  { id := "res-2", campaign_id := "cmp-1", updated_at := .dlstr 2000 }

def demoRawCampaign : Campaigns.RawCampaign :=
  { id := "c-1", campaign_id := "cmp-1" }

/-- A campaign on which no deterministic rule fires but the average
conversion is 10%, used to exhibit the fallback's severity. -/
def steadyCampaignResult : Campaigns.CampaignResult :=
  { id := "r1", campaignId := "cmp-steady", storeId := "s", targeting := "tg",
    menuSlug := none, storePhone := none, isCustom := false, payload := [],
    media := none, voucher := none,
    sendStatus := some
      { errorCount := 0, totalCount := 10, partialCount := 0, successCount := 1 },
    conversionRate := some (1/10), evasionRate := none, orderIds := none,
    ordersDelivered := some 1, totalOrderValue := none,
    timestamp := none, endTimestamp := none, createdAt := none, updatedAt := none }

def steadyCampaign : Campaigns.Campaign :=
  { id := "c1", campaignId := "cmp-steady", storeId := "s", createdAt := none,
    updatedAt := none, date := none, description := none, limit := none,
    media := none, messageContentRisk := none, messageVolumeRisk := none,
    payload := [], status := "completed", targeting := "tg", type := "campaign",
    useVoucher := false, voucher := none, results := some steadyCampaignResult }

/-- The performance record `collectCampaignPerformance` extracts from
`steadyCampaign`. -/
def steadyPerformance : Insights.CampaignPerformance :=
  { campaignId := "cmp-steady", targeting := "tg", status := "completed",
    totalSent := 10, success := 1, errors := 0, conversionRate := some (1/10),
    ordersDelivered := some 1, totalOrderValue := none, updatedAt := none }
def demoCandidateLow : Insights.InsightCandidate :=
  { id := "high-cancel-rate", severity := .medium, score := 1 }

def demoCandidateHigh : Insights.InsightCandidate :=
  { id := "low-ticket", severity := .medium, score := 2 }
/-- A raw feedback whose rating is `null`. -/
def nullRatingFeedback : Feedbacks.RawFeedback :=
  { id := "f1", store_consumer_id := "c1", rating := .rnull }

/-- A raw feedback whose numeric rating is out of range. -/
def sevenRatingFeedback : Feedbacks.RawFeedback :=
  { id := "f2", store_consumer_id := "c2", rating := .rnum 7 }
/-- Profiles used by the C8 witness. -/
def happyProfile : Seg.CustomerFeedbackProfile :=
  { storeConsumerId := "cust-happy", totalFeedbacks := 2, averageRating := 5,
    lastFeedbackAt := none, topCategories := [], sampleComments := [] }

def angryProfile : Seg.CustomerFeedbackProfile :=
  { storeConsumerId := "cust-angry", totalFeedbacks := 1, averageRating := 1,
    lastFeedbackAt := none, topCategories := [], sampleComments := [] }


/-! ### Theorems -/

lemma jsRound_eq (q : ℚ) (n : ℤ) (h1 : (n : ℚ) ≤ q + 1/2) (h2 : q + 1/2 < n + 1) :
    jsRound q = n := by
  rw [jsRound]
  exact Int.floor_eq_iff.mpr ⟨h1, by exact_mod_cast h2⟩

section StableSortFacts

variable {α : Type*} {β : Type*} [LinearOrder β]

lemma head?_sortDescBy (key : α → β) (l : List α) :
    (sortDescBy key l).head? = firstMaxBy key l := by
  induction l with
  | nil => rfl
  | cons x xs ih =>
    rw [sortDescBy, firstMaxBy]
    cases hs : sortDescBy key xs with
    | nil =>
      rw [hs] at ih
      simp only [List.head?_nil] at ih
      rw [← ih]
      simp [insertDescBy]
    | cons y ys =>
      rw [hs] at ih
      simp only [List.head?_cons] at ih
      rw [← ih]
      by_cases h : key x < key y <;> simp [insertDescBy, h]

lemma head?_sortAscBy (key : α → β) (l : List α) :
    (sortAscBy key l).head? = firstMinBy key l := by
  induction l with
  | nil => rfl
  | cons x xs ih =>
    rw [sortAscBy, firstMinBy]
    cases hs : sortAscBy key xs with
    | nil =>
      rw [hs] at ih
      simp only [List.head?_nil] at ih
      rw [← ih]
      simp [insertAscBy]
    | cons y ys =>
      rw [hs] at ih
      simp only [List.head?_cons] at ih
      rw [← ih]
      by_cases h : key y < key x <;> simp [insertAscBy, h]

lemma firstMaxBy_mem (key : α → β) (l : List α) (b : α)
    (hb : firstMaxBy key l = some b) : b ∈ l := by
  induction l with
  | nil => simp [firstMaxBy] at hb
  | cons x xs ih =>
    rw [firstMaxBy] at hb
    cases hm : firstMaxBy key xs with
    | none => rw [hm] at hb; simp at hb; simp [hb]
    | some c =>
      rw [hm] at hb
      by_cases h : key x < key c
      · simp only [h, if_pos] at hb
        simp only [Option.some.injEq] at hb
        exact List.mem_cons_of_mem x (ih (hb ▸ hm))
      · simp only [h, if_neg, not_false_iff] at hb
        simp only [Option.some.injEq] at hb
        simp [← hb]

lemma firstMaxBy_isSome_iff (key : α → β) (l : List α) :
    (firstMaxBy key l).isSome ↔ l ≠ [] := by
  cases l with
  | nil => simp [firstMaxBy]
  | cons x xs =>
    rw [firstMaxBy]
    cases firstMaxBy key xs with
    | none => simp
    | some b => by_cases h : key x < key b <;> simp [h]

lemma firstMaxBy_le (key : α → β) (l : List α) :
    ∀ b, firstMaxBy key l = some b → ∀ a ∈ l, key a ≤ key b := by
  induction l with
  | nil => simp [firstMaxBy]
  | cons x xs ih =>
    intro b hb a ha
    rw [firstMaxBy] at hb
    cases hm : firstMaxBy key xs with
    | none =>
      rw [hm] at hb
      simp only [Option.some.injEq] at hb
      have hxs : xs = [] := by
        by_contra hne
        have hsome := (firstMaxBy_isSome_iff key xs).2 hne
        rw [hm] at hsome
        simp at hsome
      subst hxs
      rcases List.mem_singleton.1 ha with rfl
      exact hb ▸ le_refl _
    | some c =>
      rw [hm] at hb
      by_cases h : key x < key c
      · simp only [if_pos h, Option.some.injEq] at hb
        subst hb
        rcases List.mem_cons.1 ha with rfl | ha'
        · exact le_of_lt h
        · exact ih _ hm a ha'
      · simp only [if_neg h, Option.some.injEq] at hb
        subst hb
        rcases List.mem_cons.1 ha with rfl | ha'
        · exact le_refl _
        · exact le_trans (ih _ hm a ha') (le_of_not_lt h)


end StableSortFacts

section LaterMaxFacts

variable {α : Type*} {β : Type*} [LinearOrder β]

lemma foldl_chooseLaterMax_some (key : α → β) (l : List α) :
    ∀ a, l.foldl (chooseLaterMax key) (some a)
      = match lastMaxBy key l with
        | none => some a
        | some b => if key a ≤ key b then some b else some a := by
  induction l with
  | nil => intro a; rfl
  | cons r t ih =>
    intro a
    rw [List.foldl_cons, lastMaxBy]
    have hstep : chooseLaterMax key (some a) r = some (if key a ≤ key r then r else a) := by
      rw [chooseLaterMax]
      by_cases h : key a ≤ key r <;> simp [h]
    rw [hstep, ih]
    cases hm : lastMaxBy key t with
    | none => by_cases h1 : key a ≤ key r <;> simp [h1]
    | some b =>
      by_cases h1 : key a ≤ key r
      · by_cases h2 : key r ≤ key b
        · have h3 : key a ≤ key b := le_trans h1 h2
          simp [h1, h2, h3]
        · simp [h1, h2]
      · by_cases h2 : key r ≤ key b
        · simp [h1, h2]
        · have h3 : ¬ key a ≤ key b :=
            fun hc => h2 (le_trans (le_of_not_le h1) hc)
          simp [h1, h2, h3]

lemma foldl_chooseLaterMax (key : α → β) (l : List α) :
    l.foldl (chooseLaterMax key) none = lastMaxBy key l := by
  cases l with
  | nil => rfl
  | cons r t =>
    rw [List.foldl_cons]
    have hstep : chooseLaterMax key (none : Option α) r = some r := rfl
    rw [hstep, foldl_chooseLaterMax_some key t r, lastMaxBy]


end LaterMaxFacts

section StatsClaims

open Stats


private lemma isDateInRange_previous_eq_closed (o : Stats.Order) (s e : ℤ) :
    isDateInRange (parseDate o.createdAt) (previousRangeStart s e) s
      = inPreviousWindowClosed o s e := by
  cases h : parseDate o.createdAt <;>
    simp [isDateInRange, inPreviousWindowClosed, previousRangeStart, h]

/-- C3 counterexample: the stats endpoint's previous window is the closed
interval `[start - duration, start]`, so an order dated exactly at `start`
is counted in the previous window (and in the current one), although the
half-open specification interval `[start - duration, start)` excludes it. -/
theorem previousWindow_boundary_counterexample :
    Stats.previousFilteredOrders [boundaryOrder] 100 200 = [boundaryOrder]
    ∧ Stats.filteredOrders [boundaryOrder] 100 200 = [boundaryOrder]
    ∧ ¬ Stats.inPreviousWindowSpec 100 100 200 := by
  refine ⟨by decide, by decide, by decide⟩

/-- C3 (amended): the previous-window order count and delivered revenue
cover exactly the orders whose parsed date lies in the closed interval
`[start - (end - start), start]`; consequently an order dated exactly at
`start` is counted in both the previous and the current window. -/
theorem previousWindow_closed_interval (orders : List Stats.Order) (s e : ℤ) :
    (Stats.previousOrdersCount orders s e
        = (orders.filter fun o => inPreviousWindowClosed o s e).length
      ∧ Stats.previousRevenue orders s e
        = deliveredRevenue (orders.filter fun o => inPreviousWindowClosed o s e))
    ∧ ∀ o ∈ orders, parseDate o.createdAt = some s → s ≤ e →
        o ∈ Stats.previousFilteredOrders orders s e
        ∧ o ∈ Stats.filteredOrders orders s e := by
  have hfil : previousFilteredOrders orders s e
      = orders.filter fun o => inPreviousWindowClosed o s e := by
    unfold previousFilteredOrders
    exact List.filter_congr fun o _ => isDateInRange_previous_eq_closed o s e
  refine ⟨⟨by rw [previousOrdersCount, hfil], by rw [previousRevenue, hfil]⟩, ?_⟩
  intro o ho hdate hse
  constructor
  · rw [hfil]
    refine List.mem_filter.2 ⟨ho, ?_⟩
    simp [inPreviousWindowClosed, hdate]
    omega
  · refine List.mem_filter.2 ⟨ho, ?_⟩
    simp [isDateInRange, hdate]
    omega

/-- Witness for C3's amended theorem at a concrete input. -/
theorem previousWindow_closed_interval_witness :
    boundaryOrder ∈ Stats.previousFilteredOrders [boundaryOrder] 100 200
    ∧ boundaryOrder ∈ Stats.filteredOrders [boundaryOrder] 100 200 :=
  (previousWindow_closed_interval [boundaryOrder] 100 200).2 boundaryOrder
    (by decide) (by decide) (by decide)

/-- C5: the percentage-variation function returns `0` for `0/0`, `100` for a
positive current value over a zero previous value, and otherwise the rounded
relative change in percent; together with the four concrete cases. -/
theorem calculateVariation_spec :
    (Stats.calculateVariation 100 0 = 100 ∧ Stats.calculateVariation 0 0 = 0
      ∧ Stats.calculateVariation 150 100 = 50 ∧ Stats.calculateVariation 50 100 = -50)
    ∧ ∀ current previous : ℚ,
        (current = 0 → previous = 0 → Stats.calculateVariation current previous = 0)
        ∧ (previous = 0 → 0 < current → Stats.calculateVariation current previous = 100)
        ∧ (previous ≠ 0 →
            Stats.calculateVariation current previous
              = jsRound ((current - previous) / previous * 100)) := by
  constructor
  · refine ⟨by norm_num [Stats.calculateVariation],
      by norm_num [Stats.calculateVariation],
      ?_, ?_⟩
    · show Stats.calculateVariation 150 100 = 50
      rw [Stats.calculateVariation, if_neg (by norm_num)]
      exact jsRound_eq _ _ (by norm_num) (by norm_num)
    · show Stats.calculateVariation 50 100 = -50
      rw [Stats.calculateVariation, if_neg (by norm_num)]
      exact jsRound_eq _ _ (by norm_num) (by norm_num)
  · intro current previous
    refine ⟨?_, ?_, ?_⟩
    · intro hc hp; simp [calculateVariation, hc, hp]
    · intro hp hc; simp [calculateVariation, hp, hc]
    · intro hp; simp [calculateVariation, hp]

/-- Witness for C5's theorem at a concrete input. -/
theorem calculateVariation_spec_witness : Stats.calculateVariation 7 0 = 100 :=
  ((calculateVariation_spec.2 7 0).2.1 rfl (by norm_num))

end StatsClaims

section SalesClaims

/-- C10: `mapOrderStatus` maps delivered/confirmed/in_transit to `paid`,
rejected/cancelled to `failed`, refunded to `refunded`, and every other
status string to `paid`; hence an order with an unrecognized status is
reported as a paid sale by the sales endpoint. -/
theorem mapOrderStatus_spec :
    (Sales.mapOrderStatus "delivered" = .paid
      ∧ Sales.mapOrderStatus "confirmed" = .paid
      ∧ Sales.mapOrderStatus "in_transit" = .paid)
    ∧ (Sales.mapOrderStatus "rejected" = .failed
      ∧ Sales.mapOrderStatus "cancelled" = .failed)
    ∧ Sales.mapOrderStatus "refunded" = .refunded
    ∧ (∀ s : String,
        s ∉ ["delivered", "confirmed", "in_transit", "rejected", "cancelled", "refunded"] →
        Sales.mapOrderStatus s = .paid)
    ∧ (∀ (order : Sales.Order) (now : ℤ) (s : String), order.status = some s →
        s ∉ ["rejected", "cancelled", "refunded"] →
        (Sales.saleOfOrder order now).status = .paid) := by
  refine ⟨⟨by decide, by decide, by decide⟩, ⟨by decide, by decide⟩, by decide, ?_, ?_⟩
  · intro s hs
    simp only [List.mem_cons, List.not_mem_nil, or_false, not_or] at hs
    obtain ⟨h1, h2, h3, h4, h5, h6⟩ := hs
    simp [Sales.mapOrderStatus, h1, h2, h3, h4, h5, h6]
  · intro order now s hstat hs
    simp only [List.mem_cons, List.not_mem_nil, or_false, not_or] at hs
    obtain ⟨h4, h5, h6⟩ := hs
    simp only [Sales.saleOfOrder, hstat, Option.getD_some]
    by_cases hdel : s = "delivered" ∨ s = "confirmed" ∨ s = "in_transit"
    · simp [Sales.mapOrderStatus, hdel]
    · simp [Sales.mapOrderStatus, hdel, h4, h5, h6]

/-- Witness for C10 at a concrete unrecognized status. -/
theorem mapOrderStatus_spec_witness :
    Sales.mapOrderStatus "created" = .paid
    ∧ (Sales.saleOfOrder { status := some "pending_payment" } 0).status = .paid :=
  ⟨mapOrderStatus_spec.2.2.2.1 "created" (by decide),
    mapOrderStatus_spec.2.2.2.2 { status := some "pending_payment" } 0
      "pending_payment" rfl (by decide)⟩

end SalesClaims

section CampaignClaims

open Campaigns

private lemma resultMapStep_apply (m : String → Option CampaignResult)
    (r : RawCampaignResult) (k : String) :
    resultMapStep m r k
      = if k = (mapResult r).campaignId then
          chooseLaterMax resultFreshness (m k) (mapResult r)
        else m k := by
  rw [resultMapStep]
  cases hm : m (mapResult r).campaignId with
  | none =>
    by_cases hk : k = (mapResult r).campaignId
    · subst hk
      simp [hm, chooseLaterMax]
    · simp [hk]
  | some existing =>
    by_cases hts : getResultTimestamp (some existing) ≤ getResultTimestamp (some (mapResult r)) <;>
      by_cases hk : k = (mapResult r).campaignId <;>
      simp [hts, hk, hm, chooseLaterMax, resultFreshness]

private lemma buildResultMap_foldl (results : List RawCampaignResult) (k : String) :
    ∀ m : String → Option CampaignResult,
      (results.foldl resultMapStep m) k
        = results.foldl
            (fun acc r =>
              if k = (mapResult r).campaignId then
                chooseLaterMax resultFreshness acc (mapResult r)
              else acc)
            (m k) := by
  induction results with
  | nil => intro m; rfl
  | cons r t ih =>
    intro m
    rw [List.foldl_cons, List.foldl_cons, ih, resultMapStep_apply]

private lemma foldl_guarded_filter (k : String) (results : List RawCampaignResult) :
    ∀ a : Option CampaignResult,
      results.foldl
          (fun acc r =>
            if k = (mapResult r).campaignId then
              chooseLaterMax resultFreshness acc (mapResult r)
            else acc)
          a
        = ((results.map mapResult).filter fun r => r.campaignId = k).foldl
            (chooseLaterMax resultFreshness) a := by
  induction results with
  | nil => intro a; rfl
  | cons r t ih =>
    intro a
    rw [List.foldl_cons, List.map_cons]
    by_cases hk : k = (mapResult r).campaignId
    · rw [if_pos hk, List.filter_cons_of_pos (by simp [hk]), List.foldl_cons, ih]
    · rw [if_neg hk, List.filter_cons_of_neg (by simp; exact fun h => hk h.symm), ih]

private lemma buildResultMap_eq_latest (results : List RawCampaignResult) (k : String) :
    buildResultMap results k = latestResultFor (results.map mapResult) k := by
  rw [buildResultMap, buildResultMap_foldl results k, latestResultFor,
    ← foldl_chooseLaterMax resultFreshness, ← foldl_guarded_filter]

private lemma resultFreshness_of_updatedAt (r : CampaignResult) (t : ℤ)
    (h : r.updatedAt = some t) : resultFreshness r = t := by
  simp [resultFreshness, getResultTimestamp, h, Option.orElse]

/-- C2: `getCampaignsWithResults` returns exactly one output campaign per
input campaign, in input order; the `results` field of the `i`-th output is
the mapped raw result sharing its `campaignId` whose freshness timestamp
(`updatedAt ?? endTimestamp ?? timestamp ?? createdAt`) is latest, the
later-scanned result winning ties, and `none` when no result shares the id;
in particular two results for one campaign with `updatedAt` T1 < T2 join as
the T2 record regardless of scan order. -/
theorem getCampaignsWithResults_spec :
    (∀ (campaigns : List RawCampaign) (results : List RawCampaignResult),
      (getCampaignsWithResults campaigns results).length = campaigns.length
      ∧ ∀ i : ℕ,
          ((getCampaignsWithResults campaigns results)[i]?).map Campaign.campaignId
            = (campaigns[i]?).map RawCampaign.campaign_id
          ∧ ((getCampaignsWithResults campaigns results)[i]?).map Campaign.results
            = (campaigns[i]?).map fun raw =>
                latestResultFor (results.map mapResult) raw.campaign_id)
    ∧ ∀ (c : RawCampaign) (r1 r2 : RawCampaignResult) (t1 t2 : ℤ),
        (mapResult r1).campaignId = c.campaign_id →
        (mapResult r2).campaignId = c.campaign_id →
        (mapResult r1).updatedAt = some t1 →
        (mapResult r2).updatedAt = some t2 →
        t1 < t2 →
        (getCampaignsWithResults [c] [r1, r2]).map Campaign.results
            = [some (mapResult r2)]
        ∧ (getCampaignsWithResults [c] [r2, r1]).map Campaign.results
            = [some (mapResult r2)] := by
  have hres : ∀ (campaigns : List RawCampaign) (results : List RawCampaignResult) (i : ℕ),
      ((getCampaignsWithResults campaigns results)[i]?).map Campaign.results
        = (campaigns[i]?).map fun raw =>
            latestResultFor (results.map mapResult) raw.campaign_id := by
    intro campaigns results i
    rw [getCampaignsWithResults, List.getElem?_map, Option.map_map]
    refine congrFun (congrArg Option.map (funext fun raw => ?_)) _
    simp [Function.comp, mapCampaign, buildResultMap_eq_latest]
  constructor
  · intro campaigns results
    refine ⟨by simp [getCampaignsWithResults], fun i => ⟨?_, hres campaigns results i⟩⟩
    rw [getCampaignsWithResults, List.getElem?_map, Option.map_map]
    refine congrFun (congrArg Option.map (funext fun raw => ?_)) _
    simp [Function.comp, mapCampaign]
  · intro c r1 r2 t1 t2 h1 h2 hu1 hu2 hlt
    have hf1 := resultFreshness_of_updatedAt (mapResult r1) t1 hu1
    have hf2 := resultFreshness_of_updatedAt (mapResult r2) t2 hu2
    have hbase : ∀ rs : List RawCampaignResult,
        (getCampaignsWithResults [c] rs).map Campaign.results
          = [latestResultFor (rs.map mapResult) c.campaign_id] := by
      intro rs
      show [(mapCampaign c (buildResultMap rs c.campaign_id)).results] = _
      rw [show (mapCampaign c (buildResultMap rs c.campaign_id)).results
          = buildResultMap rs c.campaign_id from rfl, buildResultMap_eq_latest]
    constructor
    · rw [hbase [r1, r2]]
      have hlst : latestResultFor ([r1, r2].map mapResult) c.campaign_id
          = some (mapResult r2) := by
        rw [List.map_cons, List.map_cons, List.map_nil, latestResultFor,
          List.filter_cons_of_pos (by simp [h1]),
          List.filter_cons_of_pos (by simp [h2]), List.filter_nil]
        rw [lastMaxBy, lastMaxBy, lastMaxBy]
        simp [hf1, hf2, le_of_lt hlt]
      rw [hlst]
    · rw [hbase [r2, r1]]
      have hlst : latestResultFor ([r2, r1].map mapResult) c.campaign_id
          = some (mapResult r2) := by
        rw [List.map_cons, List.map_cons, List.map_nil, latestResultFor,
          List.filter_cons_of_pos (by simp [h2]),
          List.filter_cons_of_pos (by simp [h1]), List.filter_nil]
        rw [lastMaxBy, lastMaxBy, lastMaxBy]
        simp [hf1, hf2, not_le_of_lt hlt]
      rw [hlst]

/-- Witness for C2 at a concrete input. -/
theorem getCampaignsWithResults_spec_witness :
    (Campaigns.getCampaignsWithResults [demoRawCampaign]
        [demoRawResultOld, demoRawResultNew]).map Campaigns.Campaign.results
      = [some (Campaigns.mapResult demoRawResultNew)]
    ∧ (Campaigns.getCampaignsWithResults [demoRawCampaign]
        [demoRawResultNew, demoRawResultOld]).map Campaigns.Campaign.results
      = [some (Campaigns.mapResult demoRawResultNew)] :=
  getCampaignsWithResults_spec.2 demoRawCampaign demoRawResultOld demoRawResultNew
    1000 2000 rfl rfl rfl rfl (by decide)

end CampaignClaims

section PayloadClaims

/-- C6 counterexample: the claim's string clause fails on the empty string.
`JSON.parse("")` throws, so the claim predicts `[""]`, but the leading
falsiness guard (`if (!payload) return []`) returns `[]` first. -/
theorem parsePayload_empty_string_counterexample :
    Campaigns.parsePayload (.jstr "") = []
    ∧ jsonParse "" = none
    ∧ Campaigns.parsePayload (.jstr "") ≠ [""] := by
  refine ⟨rfl, rfl, by decide⟩

/-- C6 (amended): the four concrete round-trip equations hold; every array
input maps element-wise with non-strings JSON-stringified; every non-empty
string input is JSON-parsed, with array results mapped element-wise, scalar
string results wrapped singly, anything else (parse failure or non-string
scalar) wrapping the original string; every other truthy shape is
JSON-stringified and wrapped; falsy inputs (null, `""`, `0`, `false`)
normalize to `[]`. -/
theorem parsePayload_spec :
    (Campaigns.parsePayload (.jarr [.jstr "a", .jstr "b"]) = ["a", "b"]
      ∧ Campaigns.parsePayload (.jstr "[\"x\",\"y\"]") = ["x", "y"]
      ∧ Campaigns.parsePayload (.jstr "plain") = ["plain"]
      ∧ Campaigns.parsePayload .jnull = [])
    ∧ (∀ items : List Json,
        Campaigns.parsePayload (.jarr items)
          = items.map Campaigns.payloadItemToString)
    ∧ (∀ s : String, s ≠ "" →
        Campaigns.parsePayload (.jstr s)
          = match jsonParse s with
            | some (.jarr items) => items.map Campaigns.payloadItemToString
            | some (.jstr t) => [t]
            | _ => [s])
    ∧ (∀ j : Json, jsFalsy j = false →
        (∀ items, j ≠ .jarr items) → (∀ s, j ≠ .jstr s) →
        Campaigns.parsePayload j = [jsonStringify j])
    ∧ ∀ j : Json, jsFalsy j = true → Campaigns.parsePayload j = [] := by
  refine ⟨⟨rfl, rfl, rfl, rfl⟩, ?_, ?_, ?_, ?_⟩
  · intro items
    rfl
  · intro s hs
    rw [Campaigns.parsePayload, if_neg (by simp [jsFalsy, hs])]
  · intro j
    cases j with
    | jnull => intro hfalsy _ _; simp [jsFalsy] at hfalsy
    | jbool b =>
      intro hfalsy _ _
      have hb : b = true := by simpa [jsFalsy] using hfalsy
      subst hb; rfl
    | jnum q =>
      intro hfalsy _ _
      have hq : ¬ q = 0 := by simpa [jsFalsy] using hfalsy
      show (if jsFalsy (Json.jnum q) = true then ([] : List String)
          else [jsonStringify (Json.jnum q)]) = [jsonStringify (Json.jnum q)]
      rw [if_neg (by simp [jsFalsy, hq])]
    | jstr s => intro _ _ hstr; exact absurd rfl (hstr s)
    | jarr items => intro _ harr _; exact absurd rfl (harr items)
    | jobj fields => intro _ _ _; rfl
  · intro j hfalsy
    cases j with
    | jnull => rfl
    | jbool b =>
      have hb : b = false := by simpa [jsFalsy] using hfalsy
      subst hb; rfl
    | jnum q =>
      have hq : q = 0 := by simpa [jsFalsy] using hfalsy
      subst hq; rfl
    | jstr s =>
      have hs : s = "" := by simpa [jsFalsy] using hfalsy
      subst hs; rfl
    | jarr items => simp [jsFalsy] at hfalsy
    | jobj fields => simp [jsFalsy] at hfalsy

/-- Witness for C6's amended theorem at concrete inputs. -/
theorem parsePayload_spec_witness :
    Campaigns.parsePayload (.jstr "123") = ["123"]
    ∧ Campaigns.parsePayload (.jnum 7) = ["7"] := by
  constructor
  · have h := parsePayload_spec.2.2.1 "123" (by decide)
    exact h.trans rfl
  · have h := parsePayload_spec.2.2.2.1 (.jnum 7) rfl
      (fun items hc => by cases hc) (fun s hc => by cases hc)
    exact h.trans rfl

end PayloadClaims

section ChartClaims

private lemma chart_initial_apply (normalize : ℤ → ℤ) (dates : List ℤ) (k : ℤ) :
    ∀ m : ℤ → Option ℚ,
      (dates.foldl (fun m d => Chart.mapSet m (normalize d) 0) m) k
        = if k ∈ dates.map normalize then some 0 else m k := by
  induction dates with
  | nil => intro m; simp
  | cons d t ih =>
    intro m
    rw [List.foldl_cons, ih, List.map_cons]
    by_cases hmem : k ∈ t.map normalize
    · simp [hmem]
    · by_cases hd : k = normalize d <;> simp [hmem, hd, Chart.mapSet]

private lemma chart_step_apply (normalize : ℤ → ℤ) (m : ℤ → Option ℚ)
    (s : Sales.Sale) (k : ℤ) :
    (if (m (normalize s.date)).isSome then
        Chart.mapSet m (normalize s.date) ((m (normalize s.date)).getD 0 + s.amount)
      else m) k
      = if normalize s.date = k ∧ (m k).isSome then
          some ((m k).getD 0 + s.amount)
        else m k := by
  by_cases hk : normalize s.date = k
  · subst hk
    cases hm : m (normalize s.date) <;> simp [hm, Chart.mapSet]
  · have hk' : ¬ k = normalize s.date := fun h => hk h.symm
    cases hm : m (normalize s.date) <;> simp [Chart.mapSet, hm, hk, hk']

private lemma chart_fold_apply (normalize : ℤ → ℤ) (l : List Sales.Sale) :
    ∀ (m : ℤ → Option ℚ) (k : ℤ),
      (l.foldl
          (fun (m : ℤ → Option ℚ) (sale : Sales.Sale) =>
            let key := normalize sale.date
            if (m key).isSome then
              Chart.mapSet m key ((m key).getD 0 + sale.amount)
            else m)
          m) k
        = match m k with
          | none => none
          | some v =>
            some (v + ((l.filter fun s => normalize s.date = k).map
              Sales.Sale.amount).sum) := by
  induction l with
  | nil =>
    intro m k
    cases hm : m k <;> simp [hm]
  | cons s t ih =>
    intro m k
    rw [List.foldl_cons, ih, chart_step_apply]
    by_cases hk : normalize s.date = k
    · rw [List.filter_cons_of_pos (by simp [hk])]
      cases hm : m k with
      | none => simp [hk, hm]
      | some v => simp [hk, hm, add_assoc]
    · rw [List.filter_cons_of_neg (by simp [hk]), if_neg (by simp [hk])]

/-- C7: the chart's revenue buckets add only `paid` sales, drop sales whose
normalized date matches no enumerated bucket, and report buckets in
enumeration order: the amount list equals, bucket by bucket in enumeration
order, the sum of paid-sale amounts whose normalized date equals that
bucket's normalized date; concretely, daily buckets for a three-day range
holding one paid sale of 100 on day two and one refunded sale of 999 on
day two yield `[0, 100, 0]`. -/
theorem chart_buckets_spec :
    (∀ (normalize : ℤ → ℤ) (dates : List ℤ) (sales : List Sales.Sale),
      (Chart.groupedChartData normalize dates sales).map Prod.snd
        = dates.map fun d =>
            ((sales.filter fun s =>
                s.status = SaleStatus.paid ∧ normalize s.date = normalize d).map
              Sales.Sale.amount).sum)
    ∧ (Chart.groupedChartData (fun t => 1440 * (t / 1440)) [0, 1440, 2880]
        [{ id := "s1", date := 1500, status := .paid, email := "", amount := 100 },
         { id := "s2", date := 1600, status := .refunded, email := "", amount := 999 }]).map
        Prod.snd = [0, 100, 0] := by
  have hgen : ∀ (normalize : ℤ → ℤ) (dates : List ℤ) (sales : List Sales.Sale),
      (Chart.groupedChartData normalize dates sales).map Prod.snd
        = dates.map fun d =>
            ((sales.filter fun s =>
                s.status = SaleStatus.paid ∧ normalize s.date = normalize d).map
              Sales.Sale.amount).sum := by
    intro normalize dates sales
    by_cases hempty : sales.isEmpty
    · have hnil : sales = [] := List.isEmpty_iff.mp hempty
      subst hnil
      show (dates.map fun d => ((d : ℤ), (0 : ℚ))).map Prod.snd
        = dates.map fun d =>
            ((([] : List Sales.Sale).filter fun s =>
                s.status = SaleStatus.paid ∧ normalize s.date = normalize d).map
              Sales.Sale.amount).sum
      rw [List.map_map,
        show (Prod.snd ∘ fun d : ℤ => (d, (0 : ℚ))) = fun _ => (0 : ℚ) from rfl]
      refine List.map_congr_left fun d _ => ?_
      simp
    · rw [Chart.groupedChartData, if_neg hempty]
      simp only [List.map_map]
      refine List.map_congr_left fun d hd => ?_
      simp only [Function.comp]
      rw [chart_fold_apply, chart_initial_apply]
      rw [if_pos (List.mem_map_of_mem normalize hd)]
      simp only [Option.getD_some, zero_add]
      rw [List.filter_filter]
      refine congrArg (fun l : List Sales.Sale => (l.map Sales.Sale.amount).sum) ?_
      refine List.filter_congr fun s _ => ?_
      by_cases h1 : s.status = SaleStatus.paid <;>
        by_cases h2 : normalize s.date = normalize d <;> simp [h1, h2]
  refine ⟨hgen, ?_⟩
  rw [hgen]
  have ht : (1440 : ℤ) * (1500 / 1440) = 1440 * (1440 / 1440) := by decide
  have h0 : ¬ ((1440 : ℤ) * (1500 / 1440) = 1440 * (0 / 1440)) := by decide
  have h2 : ¬ ((1440 : ℤ) * (1500 / 1440) = 1440 * (2880 / 1440)) := by decide
  simp [List.filter, ht, h0, h2]

end ChartClaims

section InsightClaims

open Insights

private lemma revenueRuleStep_eq (ps : List Insights.CampaignPerformance) :
    revenueRuleStep ps = (revenueWinnerRule ps).getD (lowConversionStep ps) := by
  rw [revenueRuleStep, revenueWinnerRule, head?_sortDescBy]
  cases firstMaxBy (fun perf => perf.totalOrderValue.getD 0)
      (ps.filter fun perf => perf.totalOrderValue.getD 0 > 0) with
  | none => rfl
  | some best =>
    dsimp only
    by_cases h : best.conversionRate.getD 0 ≥ (1/25 : ℚ)
    · rw [if_pos h, if_pos h, Option.getD_some]
    · rw [if_neg h, if_neg h, Option.getD_none]

private lemma lowConversionStep_eq (ps : List Insights.CampaignPerformance) :
    lowConversionStep ps = (lowConversionRule ps).getD (stalledStep ps) := by
  rw [lowConversionStep, lowConversionRule, head?_sortAscBy]
  cases firstMinBy (fun perf => perf.conversionRate.getD 1)
      (ps.filter fun perf => perf.totalSent ≥ 80) with
  | none => rfl
  | some low =>
    dsimp only
    by_cases h : low.conversionRate.getD 0 ≤ (1/50 : ℚ)
    · rw [if_pos h, if_pos h, Option.getD_some]
    · rw [if_neg h, if_neg h, Option.getD_none]

private lemma stalledStep_eq (ps : List Insights.CampaignPerformance) :
    stalledStep ps = (stalledCampaignRule ps).getD (keepIteratingInsight ps) := by
  rw [stalledStep, stalledCampaignRule]
  cases ps.find? (fun perf =>
      perf.totalSent = 0
        ∧ perf.status.toLower ∈ ["running", "scheduled", "processing"]) with
  | none => rfl
  | some stalled => rfl

/-- C1 (amended): `buildDeterministicCampaignInsight` is a first-match
cascade over the fixed rule order (revenue winner, low conversion, stalled
campaign) — there are no numeric scores and no weekday-gap rule in this
function — and when no rule fires it returns the keep-iterating fallback,
whose severity is `low` exactly when the average conversion is below 0.05
(`medium` otherwise); separately, the orders-driven `winningInsight`
selection returns the candidate with the highest score, the
earliest-constructed winning ties, and falls back to the score-0,
low-severity `consistent-growth` insight when no candidate fired. -/
theorem insight_selection_spec :
    (∀ campaigns : List Campaigns.Campaign,
      Insights.buildDeterministicCampaignInsight campaigns
        = if Insights.collectCampaignPerformance campaigns = [] then
            Insights.EMPTY_INSIGHT
          else
            ([Insights.revenueWinnerRule, Insights.lowConversionRule,
                Insights.stalledCampaignRule].findSome? fun rule =>
              rule (Insights.collectCampaignPerformance campaigns)).getD
              (Insights.keepIteratingInsight
                (Insights.collectCampaignPerformance campaigns)))
    ∧ (∀ ps : List Insights.CampaignPerformance,
        (Insights.keepIteratingInsight ps).severity = .low
          ↔ Insights.avgConversionOf ps < 1/20)
    ∧ (Insights.winningInsight [] = Insights.fallbackInsight
        ∧ Insights.fallbackInsight.severity = .low
        ∧ Insights.fallbackInsight.score = 0)
    ∧ (∀ candidates : List Insights.InsightCandidate, candidates ≠ [] →
        Insights.winningInsight candidates
            = (firstMaxBy (fun c => c.score) candidates).getD Insights.fallbackInsight
        ∧ Insights.winningInsight candidates ∈ candidates
        ∧ ∀ c ∈ candidates, c.score ≤ (Insights.winningInsight candidates).score) := by
  refine ⟨?_, ?_, ⟨rfl, rfl, rfl⟩, ?_⟩
  · intro campaigns
    rw [buildDeterministicCampaignInsight]
    by_cases hps : collectCampaignPerformance campaigns = []
    · rw [if_pos (by simp [hps]), if_pos hps]
    · rw [if_neg (by simpa [List.isEmpty_iff] using hps), if_neg hps]
      rw [revenueRuleStep_eq, lowConversionStep_eq, stalledStep_eq]
      cases h1 : revenueWinnerRule (collectCampaignPerformance campaigns) <;>
        cases h2 : lowConversionRule (collectCampaignPerformance campaigns) <;>
        cases h3 : stalledCampaignRule (collectCampaignPerformance campaigns) <;>
        simp [List.findSome?, h1, h2, h3]
  · intro ps
    show (if Insights.avgConversionOf ps ≥ 1/20 then Insights.Severity.medium
        else Insights.Severity.low) = Insights.Severity.low ↔ _
    by_cases h : Insights.avgConversionOf ps ≥ 1/20
    · rw [if_pos h]
      constructor
      · intro hc; exact absurd hc (by decide)
      · intro hlt; exact absurd h (not_le.2 hlt)
    · rw [if_neg h]
      exact ⟨fun _ => not_le.1 h, fun _ => rfl⟩
  · intro candidates hne
    have hwin : Insights.winningInsight candidates
        = (firstMaxBy (fun c => c.score) candidates).getD Insights.fallbackInsight := by
      rw [Insights.winningInsight, if_neg (by simpa [List.isEmpty_iff] using hne)]
      have hh := head?_sortDescBy (fun c : Insights.InsightCandidate => c.score) candidates
      cases hs : sortDescBy (fun c : Insights.InsightCandidate => c.score) candidates with
      | nil =>
        rw [hs] at hh
        have hsome := (firstMaxBy_isSome_iff
          (fun c : Insights.InsightCandidate => c.score) candidates).2 hne
        rw [← hh] at hsome
        simp at hsome
      | cons c rest =>
        rw [hs] at hh
        simp only [List.head?_cons] at hh
        rw [← hh]
        rfl
    obtain ⟨b, hb⟩ := Option.isSome_iff_exists.1
      ((firstMaxBy_isSome_iff (fun c : Insights.InsightCandidate => c.score) candidates).2 hne)
    refine ⟨hwin, ?_, ?_⟩
    · rw [hwin, hb, Option.getD_some]
      exact firstMaxBy_mem _ _ _ hb
    · intro c hc
      rw [hwin, hb, Option.getD_some]
      exact firstMaxBy_le _ candidates b hb c hc

/-- C1 counterexample: on a campaign list where no heuristic rule fires,
the deterministic selection returns the keep-iterating fallback with
severity `medium` (average conversion 10% ≥ 5%), not the low-severity
fallback the claim describes; the cascade also carries no numeric scores. -/
theorem insight_fallback_counterexample :
    Insights.buildDeterministicCampaignInsight [steadyCampaign]
      = { id := "campaign-keep-iterating", severity := .medium }
    ∧ Insights.Severity.medium ≠ Insights.Severity.low := by
  constructor
  · have hps : Insights.collectCampaignPerformance [steadyCampaign]
        = [steadyPerformance] := rfl
    rw [Insights.buildDeterministicCampaignInsight, hps, if_neg (by simp)]
    rw [revenueRuleStep_eq, lowConversionStep_eq, stalledStep_eq]
    have h1 : Insights.revenueWinnerRule [steadyPerformance] = none := rfl
    have h2 : Insights.lowConversionRule [steadyPerformance] = none := rfl
    have h3 : Insights.stalledCampaignRule [steadyPerformance] = none := rfl
    rw [h1, h2, h3, Option.getD_none, Option.getD_none, Option.getD_none]
    have havg : Insights.avgConversionOf [steadyPerformance] = 1/10 := by
      norm_num [Insights.avgConversionOf, Insights.campaignTotals, List.foldl,
        steadyPerformance]
    rw [Insights.keepIteratingInsight, havg, if_pos (by norm_num)]
  · decide


/-- Witness for C1's amended theorem at a concrete candidate list. -/
theorem insight_selection_spec_witness :
    Insights.winningInsight [demoCandidateLow, demoCandidateHigh] = demoCandidateHigh := by
  have h := (insight_selection_spec.2.2.2 [demoCandidateLow, demoCandidateHigh]
    (List.cons_ne_nil _ _)).1
  rw [h]
  rfl

end InsightClaims

section RatingClaims


/-- C4 counterexample: a `null` rating normalizes to `0` on the
`getFeedbacks` path (outside `1..5`), and the feedbacks endpoint path does
not clamp at all, passing a rating of `7` through. -/
theorem rating_clamp_counterexample :
    (Feedbacks.mapFeedback nullRatingFeedback).rating = 0
    ∧ ¬ (1 ≤ (Feedbacks.mapFeedback nullRatingFeedback).rating)
    ∧ (FeedbacksApi.mapFeedback sevenRatingFeedback).rating = .num 7
    ∧ ¬ ((7 : ℚ) ≤ 5) := by
  refine ⟨rfl, ?_, rfl, by norm_num⟩
  rw [show (Feedbacks.mapFeedback nullRatingFeedback).rating = 0 from rfl]
  norm_num

/-- C4 (amended): every rating produced by the `getFeedbacks` ingestion
path lies in `0..5` — in `1..5` whenever the raw rating is an actual
number, and exactly `0` when it is `null`, missing, or `NaN`; the
segmentation clamp also stays within `0..5`; the feedbacks endpoint path
passes numeric ratings through unclamped (with `null` becoming `0`). -/
theorem rating_clamp_spec :
    (∀ entry : Feedbacks.RawFeedback,
      (0 ≤ (Feedbacks.mapFeedback entry).rating
        ∧ (Feedbacks.mapFeedback entry).rating ≤ 5)
      ∧ (∀ q : ℚ, entry.rating = .rnum q →
          1 ≤ (Feedbacks.mapFeedback entry).rating
            ∧ (Feedbacks.mapFeedback entry).rating ≤ 5)
      ∧ ((entry.rating = .rnull ∨ entry.rating = .rnan) →
          (Feedbacks.mapFeedback entry).rating = 0)
      ∧ (∀ q : ℚ, entry.rating = .rnum q →
          (FeedbacksApi.mapFeedback entry).rating = .num q))
    ∧ ∀ v : FeedbacksApi.JsNumber, 0 ≤ Seg.clampRating v ∧ Seg.clampRating v ≤ 5 := by
  constructor
  · intro entry
    have hr : (Feedbacks.mapFeedback entry).rating = Feedbacks.clampRating entry.rating :=
      rfl
    refine ⟨?_, ?_, ?_, ?_⟩
    · rw [hr]
      cases h : entry.rating with
      | rnull => simp [Feedbacks.clampRating]
      | rnan => simp [Feedbacks.clampRating]
      | rnum q =>
        rw [Feedbacks.clampRating]
        constructor
        · exact le_min (by norm_num) (le_trans (by norm_num) (le_max_left 1 q))
        · exact min_le_left 5 _
    · intro q hq
      rw [hr, hq, Feedbacks.clampRating]
      exact ⟨le_min (by norm_num) (le_max_left 1 q), min_le_left 5 _⟩
    · intro hq
      rcases hq with hq | hq <;> rw [hr, hq] <;> rfl
    · intro q hq
      rw [show (FeedbacksApi.mapFeedback entry).rating
          = (match entry.rating with
            | .rnull => FeedbacksApi.JsNumber.num 0
            | .rnan => FeedbacksApi.JsNumber.nan
            | .rnum q => FeedbacksApi.JsNumber.num q) from rfl, hq]
  · intro v
    cases v with
    | nan => exact ⟨le_refl 0, by norm_num [Seg.clampRating]⟩
    | num q =>
      rw [Seg.clampRating]
      exact ⟨le_max_left 0 _, max_le (by norm_num) (min_le_left 5 q)⟩

/-- Witness for C4's amended theorem at concrete inputs. -/
theorem rating_clamp_spec_witness :
    (1 ≤ (Feedbacks.mapFeedback sevenRatingFeedback).rating
      ∧ (Feedbacks.mapFeedback sevenRatingFeedback).rating ≤ 5)
    ∧ (Feedbacks.mapFeedback nullRatingFeedback).rating = 0 :=
  ⟨(rating_clamp_spec.1 sevenRatingFeedback).2.1 7 rfl,
    (rating_clamp_spec.1 nullRatingFeedback).2.2.1 (Or.inl rfl)⟩

end RatingClaims

section SegClaims

private lemma toDigitsCore_head_ne_zero :
    ∀ (f n : ℕ) (ds : List Char), n ≠ 0 → n < 10 ^ f →
      ∀ c, (Nat.toDigitsCore 10 f n ds).head? = some c → c ≠ '0' := by
  intro f
  induction f with
  | zero => intro n ds hn hlt; simp at hlt; omega
  | succ f ih =>
    intro n ds hn hlt c hc
    rw [Nat.toDigitsCore] at hc
    by_cases hdiv : n / 10 = 0
    · rw [if_pos hdiv] at hc
      simp only [List.head?_cons, Option.some.injEq] at hc
      subst hc
      have hn10 : n < 10 := by omega
      have hmod : n % 10 = n := Nat.mod_eq_of_lt hn10
      rw [hmod]
      interval_cases n <;> simp_all <;> decide
    · rw [if_neg hdiv] at hc
      refine ih (n / 10) _ hdiv ((Nat.div_lt_iff_lt_mul (by norm_num)).2 ?_) c hc
      rw [pow_succ] at hlt
      exact hlt

private lemma nat_repr_head_ne_zero (n : ℕ) (hn : n ≠ 0) :
    ∀ c, (Nat.repr n).data.head? = some c → c ≠ '0' := by
  intro c hc
  rw [Nat.repr, Nat.toDigits] at hc
  have hdata : (Nat.toDigitsCore 10 (n + 1) n []).asString.data
      = Nat.toDigitsCore 10 (n + 1) n [] := rfl
  rw [hdata] at hc
  refine toDigitsCore_head_ne_zero (n + 1) n [] hn ?_ c hc
  calc n < 10 ^ n := Nat.lt_pow_self (by norm_num) n
    _ ≤ 10 ^ (n + 1) := Nat.pow_le_pow_right (by norm_num) (Nat.le_succ n)

private lemma formatCoverage_eq_zero_iff (count total : ℕ) (htotal : total ≠ 0) :
    Seg.formatCoverage count total = "0 clientes (0% dos perfis recentes)"
      ↔ count = 0 := by
  constructor
  · intro heq
    by_contra hne
    rw [Seg.formatCoverage, if_neg htotal] at heq
    have hdata := congrArg String.data heq
    simp only [String.data_append, List.append_assoc] at hdata
    have hhead := congrArg List.head? hdata
    rw [show ("0 clientes (0% dos perfis recentes)").data.head? = some '0' from rfl]
      at hhead
    cases hrd : (Nat.repr count).data with
    | nil =>
      rw [hrd, List.nil_append, List.cons_append, List.head?_cons] at hhead
      exact absurd hhead (by decide)
    | cons c cs =>
      rw [hrd, List.cons_append, List.head?_cons] at hhead
      simp only [Option.some.injEq] at hhead
      exact nat_repr_head_ne_zero count hne c (by rw [hrd]; rfl) hhead
  · intro h0
    subst h0
    rw [Seg.formatCoverage, if_neg htotal]
    have hz : (((0 : ℕ) : ℚ)) / (total : ℚ) * 100 = 0 := by
      simp
    rw [hz, show jsRound 0 = 0 from jsRound_eq 0 0 (by norm_num) (by norm_num)]
    rfl

/-- C8: for every nonempty profile list the fallback segmentation builder
partitions profiles into promoters (rating ≥ 4), neutral (≥ 2.5 and < 4)
and detractors (< 2.5); the emitted segments are exactly, in order, the
nonempty cohorts, each carrying as memberIds the storeConsumerIds of its
cohort's profiles; hence no emitted segment has zero members, and every
profile belongs to exactly one cohort. -/
theorem fallback_segmentation_spec (profiles : List Seg.CustomerFeedbackProfile)
    (hne : profiles ≠ []) :
    ((Seg.buildFallbackSegmentation profiles).segments.map fun s => s.memberIds)
        = (([profiles.filter fun profile => profile.averageRating ≥ 4,
             profiles.filter fun profile =>
               profile.averageRating ≥ 5/2 ∧ profile.averageRating < 4,
             profiles.filter fun profile => profile.averageRating < 5/2].filter
            fun cohort => cohort ≠ []).map
          fun cohort => cohort.map fun profile => profile.storeConsumerId)
    ∧ (∀ s ∈ (Seg.buildFallbackSegmentation profiles).segments, s.memberIds ≠ [])
    ∧ ∀ p ∈ profiles,
        (4 ≤ p.averageRating ∨ (5/2 ≤ p.averageRating ∧ p.averageRating < 4)
          ∨ p.averageRating < 5/2)
        ∧ ¬ (4 ≤ p.averageRating ∧ 5/2 ≤ p.averageRating ∧ p.averageRating < 4)
        ∧ ¬ (4 ≤ p.averageRating ∧ p.averageRating < 5/2)
        ∧ ¬ ((5/2 ≤ p.averageRating ∧ p.averageRating < 4) ∧ p.averageRating < 5/2) := by
  have htotal : profiles.length ≠ 0 := fun h => hne (List.length_eq_zero.mp h)
  have hne' : ¬ profiles.isEmpty = true := by simpa [List.isEmpty_iff] using hne
  have hkeep : ∀ (idName nm : String) (cohort : List Seg.CustomerFeedbackProfile)
      (pr : Seg.Priority) (ds dsig : String) (acts : List String),
      ((Seg.buildSegment idName nm cohort profiles.length pr ds dsig acts).coverage
          ≠ "0 clientes (0% dos perfis recentes)")
        ↔ cohort ≠ [] := by
    intro idName nm cohort pr ds dsig acts
    have hcov : (Seg.buildSegment idName nm cohort profiles.length pr ds dsig acts).coverage
        = Seg.formatCoverage cohort.length profiles.length := rfl
    rw [hcov]
    constructor
    · intro hc h0
      apply hc
      rw [h0]
      exact (formatCoverage_eq_zero_iff 0 profiles.length htotal).2 rfl
    · intro hc hmagic
      exact hc (List.length_eq_zero.mp
        ((formatCoverage_eq_zero_iff _ _ htotal).1 hmagic))
  have hpos : ∀ (idName nm : String) (cohort : List Seg.CustomerFeedbackProfile)
      (pr : Seg.Priority) (ds dsig : String) (acts : List String), cohort ≠ [] →
      decide ((Seg.buildSegment idName nm cohort profiles.length pr ds dsig acts).coverage
          ≠ "0 clientes (0% dos perfis recentes)") = true := by
    intro idName nm cohort pr ds dsig acts hA
    exact decide_eq_true ((hkeep idName nm cohort pr ds dsig acts).2 hA)
  have hnegseg : ∀ (idName nm : String) (cohort : List Seg.CustomerFeedbackProfile)
      (pr : Seg.Priority) (ds dsig : String) (acts : List String), cohort = [] →
      decide ((Seg.buildSegment idName nm cohort profiles.length pr ds dsig acts).coverage
          ≠ "0 clientes (0% dos perfis recentes)") = false := by
    intro idName nm cohort pr ds dsig acts hA
    subst hA
    simp only [decide_eq_false_iff_not, not_not]
    exact (formatCoverage_eq_zero_iff _ _ htotal).2 rfl
  have hfpos : ∀ (idName nm : String) (cohort : List Seg.CustomerFeedbackProfile)
      (pr : Seg.Priority) (ds dsig : String) (acts : List String)
      (rest : List Seg.CustomerSegment), cohort ≠ [] →
      List.filter (fun segment =>
          decide (segment.coverage ≠ "0 clientes (0% dos perfis recentes)"))
        (Seg.buildSegment idName nm cohort profiles.length pr ds dsig acts :: rest)
      = Seg.buildSegment idName nm cohort profiles.length pr ds dsig acts ::
          List.filter (fun segment =>
            decide (segment.coverage ≠ "0 clientes (0% dos perfis recentes)")) rest := by
    intro idName nm cohort pr ds dsig acts rest hA
    rw [List.filter_cons, if_pos (hpos idName nm cohort pr ds dsig acts hA)]
  have hfneg : ∀ (idName nm : String) (cohort : List Seg.CustomerFeedbackProfile)
      (pr : Seg.Priority) (ds dsig : String) (acts : List String)
      (rest : List Seg.CustomerSegment), cohort = [] →
      List.filter (fun segment =>
          decide (segment.coverage ≠ "0 clientes (0% dos perfis recentes)"))
        (Seg.buildSegment idName nm cohort profiles.length pr ds dsig acts :: rest)
      = List.filter (fun segment =>
          decide (segment.coverage ≠ "0 clientes (0% dos perfis recentes)")) rest := by
    intro idName nm cohort pr ds dsig acts rest hA
    rw [List.filter_cons,
      if_neg (by simp [hnegseg idName nm cohort pr ds dsig acts hA])]
  have gfpos : ∀ (x : List Seg.CustomerFeedbackProfile)
      (rest : List (List Seg.CustomerFeedbackProfile)), x ≠ [] →
      List.filter (fun cohort => decide (cohort ≠ [])) (x :: rest)
        = x :: List.filter (fun cohort => decide (cohort ≠ [])) rest := by
    intro x rest hx
    rw [List.filter_cons, if_pos (decide_eq_true hx)]
  have gfneg : ∀ (x : List Seg.CustomerFeedbackProfile)
      (rest : List (List Seg.CustomerFeedbackProfile)), x = [] →
      List.filter (fun cohort => decide (cohort ≠ [])) (x :: rest)
        = List.filter (fun cohort => decide (cohort ≠ [])) rest := by
    intro x rest hx
    subst hx
    rw [List.filter_cons, if_neg (by simp)]
  have hsegments : (Seg.buildFallbackSegmentation profiles).segments
      = ([Seg.buildSegment "promoters" "Promotores embaixadores"
            (profiles.filter fun profile => profile.averageRating ≥ 4)
            profiles.length .media
            "Clientes com notas altas e frequência de feedbacks consistente. Ideais para campanhas VIP ou programas de indicação."
            "Clientes com elogios, mas ainda sem ação específica registrada."
            ["Ofereça combos exclusivos ou primeira mão de novidades.",
             "Peça depoimentos para usar em campanhas pagas ou landing pages."],
          Seg.buildSegment "neutral" "Em risco silencioso"
            (profiles.filter fun profile =>
              profile.averageRating ≥ 5/2 ∧ profile.averageRating < 4)
            profiles.length .media
            "Clientes que misturam elogios e alertas pontuais. Precisam de ações rápidas para não migrar para concorrência."
            "Clientes com notas medianas e menções a inconsistências."
            ["Dispare campanha de teste A/B com cupom no próximo pedido.",
             "Use notificações proativas abordando o principal tema mencionado."],
          Seg.buildSegment "detractors" "Críticos urgentes"
            (profiles.filter fun profile => profile.averageRating < 5/2)
            profiles.length .alta
            "Clientes com notas baixas e reclamações repetidas. Podem impactar avaliações públicas se não forem abordados."
            "Clientes com recorrência de notas <= 2 e comentários negativos."
            ["Abra canal 1:1 (telefone ou WhatsApp) com resolução em até 24h.",
             "Ofereça crédito direcionado após confirmar a correção da falha."]].filter
          fun segment => segment.coverage ≠ "0 clientes (0% dos perfis recentes)") := by
    rw [Seg.buildFallbackSegmentation, if_neg hne']
  refine ⟨?_, ?_, ?_⟩
  · rw [hsegments]
    by_cases hPe : (profiles.filter fun profile => profile.averageRating ≥ 4) = [] <;>
      by_cases hNe : (profiles.filter fun profile =>
        profile.averageRating ≥ 5/2 ∧ profile.averageRating < 4) = [] <;>
      by_cases hDe : (profiles.filter fun profile => profile.averageRating < 5/2) = []
    · rw [hfneg _ _ _ _ _ _ _ _ hPe, hfneg _ _ _ _ _ _ _ _ hNe,
        hfneg _ _ _ _ _ _ _ _ hDe, List.filter_nil,
        gfneg _ _ hPe, gfneg _ _ hNe, gfneg _ _ hDe, List.filter_nil]
      rfl
    · rw [hfneg _ _ _ _ _ _ _ _ hPe, hfneg _ _ _ _ _ _ _ _ hNe,
        hfpos _ _ _ _ _ _ _ _ hDe, List.filter_nil,
        gfneg _ _ hPe, gfneg _ _ hNe, gfpos _ _ hDe, List.filter_nil]
      rfl
    · rw [hfneg _ _ _ _ _ _ _ _ hPe, hfpos _ _ _ _ _ _ _ _ hNe,
        hfneg _ _ _ _ _ _ _ _ hDe, List.filter_nil,
        gfneg _ _ hPe, gfpos _ _ hNe, gfneg _ _ hDe, List.filter_nil]
      rfl
    · rw [hfneg _ _ _ _ _ _ _ _ hPe, hfpos _ _ _ _ _ _ _ _ hNe,
        hfpos _ _ _ _ _ _ _ _ hDe, List.filter_nil,
        gfneg _ _ hPe, gfpos _ _ hNe, gfpos _ _ hDe, List.filter_nil]
      rfl
    · rw [hfpos _ _ _ _ _ _ _ _ hPe, hfneg _ _ _ _ _ _ _ _ hNe,
        hfneg _ _ _ _ _ _ _ _ hDe, List.filter_nil,
        gfpos _ _ hPe, gfneg _ _ hNe, gfneg _ _ hDe, List.filter_nil]
      rfl
    · rw [hfpos _ _ _ _ _ _ _ _ hPe, hfneg _ _ _ _ _ _ _ _ hNe,
        hfpos _ _ _ _ _ _ _ _ hDe, List.filter_nil,
        gfpos _ _ hPe, gfneg _ _ hNe, gfpos _ _ hDe, List.filter_nil]
      rfl
    · rw [hfpos _ _ _ _ _ _ _ _ hPe, hfpos _ _ _ _ _ _ _ _ hNe,
        hfneg _ _ _ _ _ _ _ _ hDe, List.filter_nil,
        gfpos _ _ hPe, gfpos _ _ hNe, gfneg _ _ hDe, List.filter_nil]
      rfl
    · rw [hfpos _ _ _ _ _ _ _ _ hPe, hfpos _ _ _ _ _ _ _ _ hNe,
        hfpos _ _ _ _ _ _ _ _ hDe, List.filter_nil,
        gfpos _ _ hPe, gfpos _ _ hNe, gfpos _ _ hDe, List.filter_nil]
      rfl
  · intro s hs
    rw [hsegments] at hs
    have hcond := List.of_mem_filter hs
    have hsmem := List.mem_of_mem_filter hs
    simp only [List.mem_cons, List.not_mem_nil, or_false] at hsmem
    have hcond' := of_decide_eq_true hcond
    rcases hsmem with rfl | rfl | rfl <;>
      · have hc := (hkeep _ _ _ _ _ _ _).1 hcond'
        intro hmem0
        exact hc (List.map_eq_nil_iff.mp hmem0)
  · intro p _
    refine ⟨?_, ?_, ?_, ?_⟩
    · rcases lt_or_le p.averageRating (5/2) with h | h
      · exact Or.inr (Or.inr h)
      · rcases lt_or_le p.averageRating 4 with h4 | h4
        · exact Or.inr (Or.inl ⟨h, h4⟩)
        · exact Or.inl h4
    · rintro ⟨h1, _, h2⟩; linarith
    · rintro ⟨h1, h2⟩; linarith
    · rintro ⟨⟨h1, _⟩, h2⟩; linarith


/-- Witness for C8 at a concrete two-profile input (the neutral cohort is
empty and dropped). -/
theorem fallback_segmentation_spec_witness :
    ((Seg.buildFallbackSegmentation [happyProfile, angryProfile]).segments.map
        fun s => s.memberIds)
      = [["cust-happy"], ["cust-angry"]] := by
  have h := (fallback_segmentation_spec [happyProfile, angryProfile]
    (List.cons_ne_nil _ _)).1
  rw [h]
  norm_num [happyProfile, angryProfile, List.filter_cons, List.filter_nil]

end SegClaims

section EmptyInputClaims

/-- C9: each aggregate builder degrades to an empty, zeroed, or fallback
result on empty input (totality of these models shows none of them
throws): profiles and summaries come back empty, the deterministic
campaign insight is `EMPTY_INSIGHT`, and the fallback segmentation is the
single zero-member `collect-feedback` segment with a nonempty summary. -/
theorem empty_input_aggregates_spec :
    Seg.buildCustomerFeedbackProfiles [] = []
    ∧ (Seg.buildFallbackSegmentation []).segments.map (fun s => s.id)
        = ["collect-feedback"]
    ∧ (Seg.buildFallbackSegmentation []).segments.map (fun s => s.memberIds) = [[]]
    ∧ (Seg.buildFallbackSegmentation []).summary ≠ ""
    ∧ Insights.buildDeterministicCampaignInsight [] = Insights.EMPTY_INSIGHT
    ∧ Feedbacks.buildFeedbackSummaries [] = [] := by
  refine ⟨rfl, rfl, rfl, by decide, rfl, rfl⟩

end EmptyInputClaims
